import Mathlib

/-!
Verification development for the `ingrain_rs` HTTP client library.

The development shallowly embeds the three source files:
* `src/retry.rs`   — the generic retry executor `retry`;
* `src/models.rs`  — the typed request/response contract layer (serde derive);
* `src/lib.rs`     — the client façade (`IngrainClient` methods).

Modelling conventions:
* JSON numbers are modelled as exact rationals (`Rat`).  For finite floats
  serde_json's ryu printing makes encode-then-decode value preserving, which
  the rational model reflects exactly; non-finite floats are outside the model.
* `reqwest::StatusCode` is modelled by its numeric code (`Nat`); its `Display`
  is modelled by the numeric code rendered in decimal (the real display appends
  the canonical reason phrase after the number, which no claim depends on).
* serde's derived deserializers are modelled over the JSON value tree
  (`serde_json::from_str` = text parse, then decode from the value); the text
  parser models the JSON fragment exercised here (objects, arrays, strings
  without escape sequences, integer numbers, literals).
* Async effects (sending, sleeping) are recorded as an explicit event trace.
-/

namespace Ingrain

/-- JSON value tree, the target of the modelled text parser and the source for
the modelled serde decoders.  Numbers are exact rationals. -/
inductive Json where
  | null
  | bool (b : Bool)
  | num (q : Rat)
  | str (s : String)
  | arr (elems : List Json)
  | obj (fields : List (String × Json))
deriving Repr, Inhabited

/-- First occurrence of a field name in an object's field list (the decoders
are only applied to objects without duplicate known keys, where first and last
occurrence agree with serde's behaviour). -/
def lookupField (fields : List (String × Json)) (name : String) : Option Json :=
  match fields with
  | [] => none
  | (k, v) :: rest => if k = name then some v else lookupField rest name

/-- Decode a JSON value as a string (serde `String`). -/
def asString : Json → Except String String
  | .str s => .ok s
  | _ => .error "invalid type: expected a string"

/-- Decode a JSON value as a boolean (serde `bool`). -/
def asBool : Json → Except String Bool
  | .bool b => .ok b
  | _ => .error "invalid type: expected a boolean"

/-- Decode a JSON value as a number (serde `f32`, modelled as `Rat`). -/
def asNum : Json → Except String Rat
  | .num q => .ok q
  | _ => .error "invalid type: expected a number"

/-- Decode a JSON value as an unsigned integer below `bound` (serde `u16` with
`bound = 2^16`, `u64` with `bound = 2^64`). -/
def asNatBelow (bound : Nat) : Json → Except String Nat
  | .num q =>
    if q.den = 1 ∧ 0 ≤ q.num ∧ q.num < (bound : Int) then .ok q.num.toNat
    else .error "invalid value: integer out of range"
  | _ => .error "invalid type: expected an integer"

/-- Decode a JSON array elementwise (serde `Vec<T>`). -/
def decodeList (sub : Json → Except String α) : Json → Except String (List α)
  | .arr elems => elems.mapM sub
  | _ => .error "invalid type: expected a sequence"

/-- Required struct field: absence is an error (serde field without
`#[serde(default)]` and of non-`Option` type). -/
def reqField (fields : List (String × Json)) (name : String)
    (sub : Json → Except String α) : Except String α :=
  match lookupField fields name with
  | none => .error ("missing field " ++ name)
  | some j => sub j

/-- Test for the JSON `null` value. -/
def Json.isNull : Json → Bool
  | .null => true
  | _ => false

/-- Optional struct field: a missing field and an explicit `null` both decode
to `none` (serde's special handling of `Option<T>` fields); any other value is
decoded and wrapped in `some`. -/
def optField (fields : List (String × Json)) (name : String)
    (sub : Json → Except String α) : Except String (Option α) :=
  match lookupField fields name with
  | none => .ok none
  | some j => cond j.isNull (.ok none) ((sub j).map some)

/-! ## Retry executor (`src/retry.rs`)

`retry` is generic over the decode target `T : DeserializeOwned`; the embedding
takes the induced body decoder `decode : String → Except String T` as an
explicit parameter, exactly as the Rust generic does implicitly.  The network
is a function from the attempt index to that attempt's transport outcome, and
`request_builder.try_clone()` succeeding or not is a fixed property of the
builder (`cloneable`), as it is in reqwest (it fails precisely when the body is
a stream, independent of the attempt). -/

/-- Transport outcome of one attempt: `request.send()` fails, the response
arrives but `response.text()` fails, or a status plus full body text arrive. -/
inductive Net where
  | sendErr (e : String)
  | bodyErr (e : String)
  | resp (status : Nat) (body : String)
deriving Repr, DecidableEq

/-- StatusCode::is_success — 2xx. -/
def isSuccessStatus (s : Nat) : Bool := 200 ≤ s && s < 300

/-- Observable events of a `retry` run: a `request.send()` call, or a
`sleep(Duration::from_millis(ms))` call. -/
inductive Ev where
  | send
  | sleep (ms : Nat)
deriving Repr, DecidableEq

/-- Classification of one attempt after a successful clone: the sole success
exit (decoded value), a fatal error propagated by `?` (body read failure), or a
recorded failure reason that lets the loop continue. -/
inductive AttemptRes (T : Type) where
  | success (v : T)
  | fatal (msg : String)
  | failure (reason : String)

/-- The per-attempt classification performed by the loop body of `retry`
(src/retry.rs lines 23–46): on send error record `Network error: {e}`; on body
read error propagate `e` via `?`; on a response, a success status with a
decodable body returns the value, a success status with an undecodable body
records a parse failure carrying the raw body, and a non-success status records
the status and raw body. -/
def attemptOutcome (decode : String → Except String T) : Net → AttemptRes T
  | .sendErr e => .failure ("Network error: " ++ e)
  | .bodyErr e => .fatal e
  | .resp status body =>
    if isSuccessStatus status then
      match decode body with
      | .ok v => .success v
      | .error e =>
        .failure ("Failed to parse response: " ++ e ++ " (body: " ++ body ++ ")")
    else
      .failure ("Request failed with status: " ++ toString status ++
        " (body: " ++ body ++ ")")

/-- The loop of `retry` over the remaining attempts' outcomes, threading
`last_err`.  Each iteration first clones the builder (failure is the fatal
`Failed to clone request` error, before any send), then sends and classifies;
`sleep` runs only when this was not the last attempt (`attempt < retries`,
i.e. the remaining list is not yet exhausted). -/
def retryAux (decode : String → Except String T) (cloneable : Bool)
    (delayMs : Nat) : List Net → Option String → Except String T × List Ev
  | [], lastErr => (.error (lastErr.getD "Unknown error"), [])
  | o :: rest, _lastErr =>
    if cloneable then
      match attemptOutcome decode o with
      | .success v => (.ok v, [Ev.send])
      | .fatal msg => (.error msg, [Ev.send])
      | .failure reason =>
        let next := retryAux decode cloneable delayMs rest (some reason)
        (next.1, Ev.send :: (if rest.isEmpty then [] else [Ev.sleep delayMs]) ++ next.2)
    else
      (.error "Failed to clone request", [])

/-- pub async fn retry<T>(request_builder, retries: u16, retry_delay_ms: u64):
the loop runs for attempt in `0..retries + 1`, and `retries + 1` is u16
arithmetic, modelled as `(retries + 1) % 2^16`: for `retries ≤ 65534` that is
`retries + 1` planned attempts, while at `retries = 65535` the increment wraps
to zero (release-profile wrapping; with overflow checks the addition would
panic instead) and the loop body never runs.  The network's behaviour at
attempt `i` is `env i`. -/
def retry (decode : String → Except String T) (cloneable : Bool)
    (env : Nat → Net) (retries : Nat) (delayMs : Nat) :
    Except String T × List Ev :=
  retryAux decode cloneable delayMs
    ((List.range ((retries + 1) % 65536)).map env) none

/-! ## Contract layer (`src/models.rs`)

Each Rust record becomes a structure with the same fields; `f32` is modelled
as `Rat` (see the header), `u16`/`u64` as `Nat` with the range enforced at
decode time, and `HashMap<String, V>` as an association list.  `encode…`
models serde `Serialize` (to a JSON value; `None` serializes as `null`),
`decode…` models serde `Deserialize` (from a JSON value; unknown fields are
ignored, missing `Option` fields are `none`, missing required fields fail). -/

abbrev F32 := Rat

/-- enum ModelLibrary with `#[serde(rename_all = "snake_case")]`. -/
inductive ModelLibrary where
  | openClip
  | sentenceTransformers
  | timm
deriving Repr, DecidableEq

structure EmbeddingRequest where
  name : String
  text : Option (List String)
  image : Option (List String)
  normalize : Option Bool
  n_dims : Option Nat
  image_download_headers : Option (List (String × String))
deriving Repr, DecidableEq

structure TextEmbeddingRequest where
  name : String
  text : List String
  normalize : Option Bool
  n_dims : Option Nat
deriving Repr, DecidableEq

structure ImageEmbeddingRequest where
  name : String
  image : List String
  normalize : Option Bool
  n_dims : Option Nat
  image_download_headers : Option (List (String × String))
deriving Repr, DecidableEq

structure ImageClassificationRequest where
  name : String
  image : List String
  image_download_headers : Option (List (String × String))
deriving Repr, DecidableEq

structure LoadModelRequest where
  name : String
  library : ModelLibrary
deriving Repr, DecidableEq

structure UnloadModelRequest where
  name : String
deriving Repr, DecidableEq

structure ModelMetadataRequest where
  name : String
deriving Repr, DecidableEq

structure GenericMessageResponse where
  message : String
deriving Repr, DecidableEq

structure LoadedModel where
  name : String
  library : ModelLibrary
deriving Repr, DecidableEq

structure LoadedModelResponse where
  models : List LoadedModel
deriving Repr, DecidableEq

structure RepositoryModel where
  name : String
  state : String
deriving Repr, DecidableEq

structure RepositoryModelResponse where
  models : List RepositoryModel
deriving Repr, DecidableEq

structure InferenceStats where
  count : Option String
  ns : Option String
deriving Repr, DecidableEq

structure BatchStats where
  batch_size : String
  compute_input : InferenceStats
  compute_infer : InferenceStats
  compute_output : InferenceStats
deriving Repr, DecidableEq

structure ModelStats where
  name : String
  version : String
  inference_stats : List (String × InferenceStats)
  last_inference : Option String
  inference_count : Option String
  execution_count : Option String
  batch_stats : Option (List BatchStats)
deriving Repr, DecidableEq

structure MetricsResponse where
  model_stats : List ModelStats
deriving Repr, DecidableEq

structure TextEmbeddingResponse where
  embeddings : List (List F32)
  processing_time_ms : F32
deriving Repr, DecidableEq

structure ImageEmbeddingResponse where
  embeddings : List (List F32)
  processing_time_ms : F32
deriving Repr, DecidableEq

structure ImageClassificationResponse where
  probabilities : List (List F32)
  processing_time_ms : F32
deriving Repr, DecidableEq

structure EmbeddingResponse where
  text_embeddings : Option (List (List F32))
  image_embeddings : Option (List (List F32))
  processing_time_ms : F32
deriving Repr, DecidableEq

structure ModelClassificationLabelsResponse where
  labels : List String
deriving Repr, DecidableEq

structure ModelEmbeddingDimsResponse where
  embedding_size : Nat
deriving Repr, DecidableEq

/-! ### Generic serde building blocks -/

/-- serde serializes `Option::None` as `null` and `Some(v)` as `v`. -/
def encodeOpt (enc : α → Json) : Option α → Json
  | none => Json.null
  | some v => enc v

def encodeStrList (xs : List String) : Json := .arr (xs.map Json.str)

def encodeNat (n : Nat) : Json := .num (n : Rat)

def encodeMatrix (m : List (List F32)) : Json :=
  .arr (m.map fun row => .arr (row.map Json.num))

/-- HashMap<String, V> serializes as a JSON object (association-list model). -/
def encodeMap (enc : α → Json) (kvs : List (String × α)) : Json :=
  .obj (kvs.map fun kv => (kv.1, enc kv.2))

def decodeStrList : Json → Except String (List String) := decodeList asString

def decodeMatrix : Json → Except String (List (List F32)) :=
  decodeList (decodeList asNum)

def decodeMap (sub : Json → Except String α) :
    Json → Except String (List (String × α))
  | .obj fs => fs.mapM fun kv => (sub kv.2).map fun v => (kv.1, v)
  | _ => .error "invalid type: expected a map"

/-! ### Per-type encoders (serde `Serialize`, wire names applied) -/

/-- snake_case tokens of the three ModelLibrary variants. -/
def encodeModelLibrary : ModelLibrary → Json
  | .openClip => .str "open_clip"
  | .sentenceTransformers => .str "sentence_transformers"
  | .timm => .str "timm"

def encodeEmbeddingRequest (r : EmbeddingRequest) : Json :=
  .obj [("name", .str r.name),
        ("text", encodeOpt encodeStrList r.text),
        ("image", encodeOpt encodeStrList r.image),
        ("normalize", encodeOpt Json.bool r.normalize),
        ("nDims", encodeOpt encodeNat r.n_dims),
        ("imageDownloadHeaders", encodeOpt (encodeMap Json.str) r.image_download_headers)]

def encodeTextEmbeddingRequest (r : TextEmbeddingRequest) : Json :=
  .obj [("name", .str r.name),
        ("text", encodeStrList r.text),
        ("normalize", encodeOpt Json.bool r.normalize),
        ("nDims", encodeOpt encodeNat r.n_dims)]

def encodeImageEmbeddingRequest (r : ImageEmbeddingRequest) : Json :=
  .obj [("name", .str r.name),
        ("image", encodeStrList r.image),
        ("normalize", encodeOpt Json.bool r.normalize),
        ("nDims", encodeOpt encodeNat r.n_dims),
        ("imageDownloadHeaders", encodeOpt (encodeMap Json.str) r.image_download_headers)]

def encodeImageClassificationRequest (r : ImageClassificationRequest) : Json :=
  .obj [("name", .str r.name),
        ("image", encodeStrList r.image),
        ("imageDownloadHeaders", encodeOpt (encodeMap Json.str) r.image_download_headers)]

def encodeLoadModelRequest (r : LoadModelRequest) : Json :=
  .obj [("name", .str r.name), ("library", encodeModelLibrary r.library)]

def encodeUnloadModelRequest (r : UnloadModelRequest) : Json :=
  .obj [("name", .str r.name)]

def encodeModelMetadataRequest (r : ModelMetadataRequest) : Json :=
  .obj [("name", .str r.name)]

def encodeGenericMessageResponse (r : GenericMessageResponse) : Json :=
  .obj [("message", .str r.message)]

def encodeLoadedModel (r : LoadedModel) : Json :=
  .obj [("name", .str r.name), ("library", encodeModelLibrary r.library)]

def encodeLoadedModelResponse (r : LoadedModelResponse) : Json :=
  .obj [("models", .arr (r.models.map encodeLoadedModel))]

def encodeRepositoryModel (r : RepositoryModel) : Json :=
  .obj [("name", .str r.name), ("state", .str r.state)]

def encodeRepositoryModelResponse (r : RepositoryModelResponse) : Json :=
  .obj [("models", .arr (r.models.map encodeRepositoryModel))]

def encodeInferenceStats (r : InferenceStats) : Json :=
  .obj [("count", encodeOpt Json.str r.count), ("ns", encodeOpt Json.str r.ns)]

def encodeBatchStats (r : BatchStats) : Json :=
  .obj [("batchSize", .str r.batch_size),
        ("computeInput", encodeInferenceStats r.compute_input),
        ("computeInfer", encodeInferenceStats r.compute_infer),
        ("computeOutput", encodeInferenceStats r.compute_output)]

def encodeModelStats (r : ModelStats) : Json :=
  .obj [("name", .str r.name),
        ("version", .str r.version),
        ("inferenceStats", encodeMap encodeInferenceStats r.inference_stats),
        ("lastInference", encodeOpt Json.str r.last_inference),
        ("inferenceCount", encodeOpt Json.str r.inference_count),
        ("executionCount", encodeOpt Json.str r.execution_count),
        ("batchStats", encodeOpt (fun xs => Json.arr (xs.map encodeBatchStats)) r.batch_stats)]

def encodeMetricsResponse (r : MetricsResponse) : Json :=
  .obj [("modelStats", .arr (r.model_stats.map encodeModelStats))]

def encodeTextEmbeddingResponse (r : TextEmbeddingResponse) : Json :=
  .obj [("embeddings", encodeMatrix r.embeddings),
        ("processingTimeMs", .num r.processing_time_ms)]

def encodeImageEmbeddingResponse (r : ImageEmbeddingResponse) : Json :=
  .obj [("embeddings", encodeMatrix r.embeddings),
        ("processingTimeMs", .num r.processing_time_ms)]

def encodeImageClassificationResponse (r : ImageClassificationResponse) : Json :=
  .obj [("probabilities", encodeMatrix r.probabilities),
        ("processingTimeMs", .num r.processing_time_ms)]

def encodeEmbeddingResponse (r : EmbeddingResponse) : Json :=
  .obj [("textEmbeddings", encodeOpt encodeMatrix r.text_embeddings),
        ("imageEmbeddings", encodeOpt encodeMatrix r.image_embeddings),
        ("processingTimeMs", .num r.processing_time_ms)]

def encodeModelClassificationLabelsResponse (r : ModelClassificationLabelsResponse) : Json :=
  .obj [("labels", encodeStrList r.labels)]

def encodeModelEmbeddingDimsResponse (r : ModelEmbeddingDimsResponse) : Json :=
  .obj [("embeddingSize", encodeNat r.embedding_size)]

/-! ### Per-type decoders (serde `Deserialize` from a JSON value) -/

def decodeModelLibrary : Json → Except String ModelLibrary
  | .str s =>
    if s = "open_clip" then .ok .openClip
    else if s = "sentence_transformers" then .ok .sentenceTransformers
    else if s = "timm" then .ok .timm
    else .error ("unknown variant " ++ s)
  | _ => .error "invalid type: expected a string variant"

def decodeEmbeddingRequest : Json → Except String EmbeddingRequest
  | .obj fs => do
    let name ← reqField fs "name" asString
    let text ← optField fs "text" decodeStrList
    let image ← optField fs "image" decodeStrList
    let normalize ← optField fs "normalize" asBool
    let nDims ← optField fs "nDims" (asNatBelow 65536)
    let hdrs ← optField fs "imageDownloadHeaders" (decodeMap asString)
    .ok { name := name, text := text, image := image, normalize := normalize,
          n_dims := nDims, image_download_headers := hdrs }
  | _ => .error "invalid type: expected a struct"

def decodeTextEmbeddingRequest : Json → Except String TextEmbeddingRequest
  | .obj fs => do
    let name ← reqField fs "name" asString
    let text ← reqField fs "text" decodeStrList
    let normalize ← optField fs "normalize" asBool
    let nDims ← optField fs "nDims" (asNatBelow 65536)
    .ok { name := name, text := text, normalize := normalize, n_dims := nDims }
  | _ => .error "invalid type: expected a struct"

def decodeImageEmbeddingRequest : Json → Except String ImageEmbeddingRequest
  | .obj fs => do
    let name ← reqField fs "name" asString
    let image ← reqField fs "image" decodeStrList
    let normalize ← optField fs "normalize" asBool
    let nDims ← optField fs "nDims" (asNatBelow 65536)
    let hdrs ← optField fs "imageDownloadHeaders" (decodeMap asString)
    .ok { name := name, image := image, normalize := normalize, n_dims := nDims,
          image_download_headers := hdrs }
  | _ => .error "invalid type: expected a struct"

def decodeImageClassificationRequest : Json → Except String ImageClassificationRequest
  | .obj fs => do
    let name ← reqField fs "name" asString
    let image ← reqField fs "image" decodeStrList
    let hdrs ← optField fs "imageDownloadHeaders" (decodeMap asString)
    .ok { name := name, image := image, image_download_headers := hdrs }
  | _ => .error "invalid type: expected a struct"

def decodeLoadModelRequest : Json → Except String LoadModelRequest
  | .obj fs => do
    let name ← reqField fs "name" asString
    let library ← reqField fs "library" decodeModelLibrary
    .ok { name := name, library := library }
  | _ => .error "invalid type: expected a struct"

def decodeUnloadModelRequest : Json → Except String UnloadModelRequest
  | .obj fs => do
    let name ← reqField fs "name" asString
    .ok { name := name }
  | _ => .error "invalid type: expected a struct"

def decodeModelMetadataRequest : Json → Except String ModelMetadataRequest
  | .obj fs => do
    let name ← reqField fs "name" asString
    .ok { name := name }
  | _ => .error "invalid type: expected a struct"

def decodeGenericMessageResponse : Json → Except String GenericMessageResponse
  | .obj fs => do
    let message ← reqField fs "message" asString
    .ok { message := message }
  | _ => .error "invalid type: expected a struct"

def decodeLoadedModel : Json → Except String LoadedModel
  | .obj fs => do
    let name ← reqField fs "name" asString
    let library ← reqField fs "library" decodeModelLibrary
    .ok { name := name, library := library }
  | _ => .error "invalid type: expected a struct"

def decodeLoadedModelResponse : Json → Except String LoadedModelResponse
  | .obj fs => do
    let models ← reqField fs "models" (decodeList decodeLoadedModel)
    .ok { models := models }
  | _ => .error "invalid type: expected a struct"

def decodeRepositoryModel : Json → Except String RepositoryModel
  | .obj fs => do
    let name ← reqField fs "name" asString
    let state ← reqField fs "state" asString
    .ok { name := name, state := state }
  | _ => .error "invalid type: expected a struct"

def decodeRepositoryModelResponse : Json → Except String RepositoryModelResponse
  | .obj fs => do
    let models ← reqField fs "models" (decodeList decodeRepositoryModel)
    .ok { models := models }
  | _ => .error "invalid type: expected a struct"

def decodeInferenceStats : Json → Except String InferenceStats
  | .obj fs => do
    let count ← optField fs "count" asString
    let ns ← optField fs "ns" asString
    .ok { count := count, ns := ns }
  | _ => .error "invalid type: expected a struct"

def decodeBatchStats : Json → Except String BatchStats
  | .obj fs => do
    let batchSize ← reqField fs "batchSize" asString
    let computeInput ← reqField fs "computeInput" decodeInferenceStats
    let computeInfer ← reqField fs "computeInfer" decodeInferenceStats
    let computeOutput ← reqField fs "computeOutput" decodeInferenceStats
    .ok { batch_size := batchSize, compute_input := computeInput,
          compute_infer := computeInfer, compute_output := computeOutput }
  | _ => .error "invalid type: expected a struct"

def decodeModelStats : Json → Except String ModelStats
  | .obj fs => do
    let name ← reqField fs "name" asString
    let version ← reqField fs "version" asString
    let inferenceStats ← reqField fs "inferenceStats" (decodeMap decodeInferenceStats)
    let lastInference ← optField fs "lastInference" asString
    let inferenceCount ← optField fs "inferenceCount" asString
    let executionCount ← optField fs "executionCount" asString
    let batchStats ← optField fs "batchStats" (decodeList decodeBatchStats)
    .ok { name := name, version := version, inference_stats := inferenceStats,
          last_inference := lastInference, inference_count := inferenceCount,
          execution_count := executionCount, batch_stats := batchStats }
  | _ => .error "invalid type: expected a struct"

def decodeMetricsResponse : Json → Except String MetricsResponse
  | .obj fs => do
    let modelStats ← reqField fs "modelStats" (decodeList decodeModelStats)
    .ok { model_stats := modelStats }
  | _ => .error "invalid type: expected a struct"

def decodeTextEmbeddingResponse : Json → Except String TextEmbeddingResponse
  | .obj fs => do
    let embeddings ← reqField fs "embeddings" decodeMatrix
    let pt ← reqField fs "processingTimeMs" asNum
    .ok { embeddings := embeddings, processing_time_ms := pt }
  | _ => .error "invalid type: expected a struct"

def decodeImageEmbeddingResponse : Json → Except String ImageEmbeddingResponse
  | .obj fs => do
    let embeddings ← reqField fs "embeddings" decodeMatrix
    let pt ← reqField fs "processingTimeMs" asNum
    .ok { embeddings := embeddings, processing_time_ms := pt }
  | _ => .error "invalid type: expected a struct"

def decodeImageClassificationResponse : Json → Except String ImageClassificationResponse
  | .obj fs => do
    let probabilities ← reqField fs "probabilities" decodeMatrix
    let pt ← reqField fs "processingTimeMs" asNum
    .ok { probabilities := probabilities, processing_time_ms := pt }
  | _ => .error "invalid type: expected a struct"

def decodeEmbeddingResponse : Json → Except String EmbeddingResponse
  | .obj fs => do
    let textEmbeddings ← optField fs "textEmbeddings" decodeMatrix
    let imageEmbeddings ← optField fs "imageEmbeddings" decodeMatrix
    let pt ← reqField fs "processingTimeMs" asNum
    .ok { text_embeddings := textEmbeddings, image_embeddings := imageEmbeddings,
          processing_time_ms := pt }
  | _ => .error "invalid type: expected a struct"

def decodeModelClassificationLabelsResponse :
    Json → Except String ModelClassificationLabelsResponse
  | .obj fs => do
    let labels ← reqField fs "labels" decodeStrList
    .ok { labels := labels }
  | _ => .error "invalid type: expected a struct"

def decodeModelEmbeddingDimsResponse : Json → Except String ModelEmbeddingDimsResponse
  | .obj fs => do
    let size ← reqField fs "embeddingSize" (asNatBelow 18446744073709551616)
    .ok { embedding_size := size }
  | _ => .error "invalid type: expected a struct"

/-- The object `fs` lacks a usable value for the required field `name` under
the field's sub-decoder `sub`: the field is missing, or it is present with a
value the sub-decoder rejects (wrong type or malformed content). -/
def badRequired (fs : List (String × Json)) (name : String)
    (sub : Json → Except String α) : Prop :=
  lookupField fs name = none ∨
    ∃ j, lookupField fs name = some j ∧ ∀ x, sub j ≠ .ok x

/-! ### JSON text parsing (the parse stage of `serde_json::from_str`)

Fuel-indexed recursive descent over the character list.  The modelled fragment
covers objects, arrays, strings without escape sequences, integer numbers and
the three literals — everything the claims exercise; outside the fragment the
parser fails, as a malformed body does in serde. -/

def isJsonWs (c : Char) : Bool :=
  c = ' ' || c = '\t' || c = '\n' || c = '\r'

def skipWs : List Char → List Char
  | [] => []
  | c :: cs => if isJsonWs c then skipWs cs else c :: cs

/-- Body of a JSON string after the opening quote, up to the closing quote. -/
def parseStringBody : List Char → Except String (String × List Char)
  | [] => .error "unexpected end of input while reading a string"
  | c :: cs =>
    if c = '"' then .ok ("", cs)
    else if c = '\\' then .error "escape sequence outside the modelled fragment"
    else
      match parseStringBody cs with
      | .error e => .error e
      | .ok (s, rest) => .ok (String.mk (c :: s.data), rest)

def takeDigits : List Char → List Char × List Char
  | [] => ([], [])
  | c :: cs =>
    if c.isDigit then
      let r := takeDigits cs
      (c :: r.1, r.2)
    else ([], c :: cs)

def digitsToNat (ds : List Char) : Nat :=
  ds.foldl (fun acc c => acc * 10 + (c.toNat - 48)) 0

mutual

def parseValue : Nat → List Char → Except String (Json × List Char)
  | 0, _ => .error "recursion limit exceeded"
  | fuel + 1, cs =>
    match skipWs cs with
    | [] => .error "unexpected end of input"
    | c :: rest =>
      if c = '"' then
        match parseStringBody rest with
        | .error e => .error e
        | .ok (s, r2) => .ok (Json.str s, r2)
      else if c = '[' then
        match skipWs rest with
        | ']' :: r2 => .ok (Json.arr [], r2)
        | r2 =>
          match parseElems fuel r2 with
          | .error e => .error e
          | .ok (xs, r3) => .ok (Json.arr xs, r3)
      else if c = '{' then
        match skipWs rest with
        | '}' :: r2 => .ok (Json.obj [], r2)
        | r2 =>
          match parseMembers fuel r2 with
          | .error e => .error e
          | .ok (ms, r3) => .ok (Json.obj ms, r3)
      else if c = 'n' then
        match rest with
        | 'u' :: 'l' :: 'l' :: r2 => .ok (Json.null, r2)
        | _ => .error "expected the literal null"
      else if c = 't' then
        match rest with
        | 'r' :: 'u' :: 'e' :: r2 => .ok (Json.bool true, r2)
        | _ => .error "expected the literal true"
      else if c = 'f' then
        match rest with
        | 'a' :: 'l' :: 's' :: 'e' :: r2 => .ok (Json.bool false, r2)
        | _ => .error "expected the literal false"
      else if c = '-' then
        match takeDigits rest with
        | ([], _) => .error "expected digits after the minus sign"
        | (ds, r2) => .ok (Json.num (-(digitsToNat ds : Rat)), r2)
      else if c.isDigit then
        let r := takeDigits (c :: rest)
        .ok (Json.num (digitsToNat r.1 : Rat), r.2)
      else .error "unexpected character"

def parseElems : Nat → List Char → Except String (List Json × List Char)
  | 0, _ => .error "recursion limit exceeded"
  | fuel + 1, cs =>
    match parseValue fuel cs with
    | .error e => .error e
    | .ok (v, rest) =>
      match skipWs rest with
      | ',' :: r2 =>
        match parseElems fuel r2 with
        | .error e => .error e
        | .ok (xs, r3) => .ok (v :: xs, r3)
      | ']' :: r2 => .ok ([v], r2)
      | _ => .error "expected a comma or a closing bracket"

def parseMembers : Nat → List Char → Except String (List (String × Json) × List Char)
  | 0, _ => .error "recursion limit exceeded"
  | fuel + 1, cs =>
    match skipWs cs with
    | '"' :: r1 =>
      match parseStringBody r1 with
      | .error e => .error e
      | .ok (k, r2) =>
        match skipWs r2 with
        | ':' :: r3 =>
          match parseValue fuel r3 with
          | .error e => .error e
          | .ok (v, r4) =>
            match skipWs r4 with
            | ',' :: r5 =>
              match parseMembers fuel r5 with
              | .error e => .error e
              | .ok (ms, r6) => .ok ((k, v) :: ms, r6)
            | '}' :: r5 => .ok ([(k, v)], r5)
            | _ => .error "expected a comma or a closing brace"
        | _ => .error "expected a colon"
    | _ => .error "expected a string key"

end

/-- serde_json::from_str's parse stage: a complete JSON value with only
whitespace after it. -/
def parseJson (s : String) : Except String Json :=
  match parseValue (s.length + 1) s.toList with
  | .error e => .error e
  | .ok (v, rest) =>
    match skipWs rest with
    | [] => .ok v
    | _ => .error "trailing characters"

/-- serde_json::from_str::<T> = parse the text, then decode the value. -/
def fromStr (dec : Json → Except String α) (s : String) : Except String α :=
  match parseJson s with
  | .error e => .error e
  | .ok j => dec j

/-! ## Client façade (`src/lib.rs`)

The non-retried operations all share the same post-receive shape: read the
status, read the body text, parse the body into the expected type with `?`
(so a parse failure returns before the status is inspected), then return the
parsed value on a success status and a formatted error otherwise.  The
functions below model that shape from the received `(status, body text)` pair;
URL construction and the send itself (whose failure trivially propagates via
`?`) are outside the modelled state. -/

/-- async fn server_health (lib.rs lines 51–66): error branch formats only the
status, not the body. -/
def server_health (status : Nat) (bodyText : String) :
    Except String GenericMessageResponse :=
  match fromStr decodeGenericMessageResponse bodyText with
  | .error e => .error e
  | .ok parsed =>
    if isSuccessStatus status then .ok parsed
    else .error ("Request failed with status: " ++ toString status)

/-- pub async fn loaded_models (lib.rs lines 78–90). -/
def loaded_models (status : Nat) (bodyText : String) :
    Except String LoadedModelResponse :=
  match fromStr decodeLoadedModelResponse bodyText with
  | .error e => .error e
  | .ok parsed =>
    if isSuccessStatus status then .ok parsed
    else .error ("Request failed with status: " ++ toString status)

/-- pub async fn repository_models (lib.rs lines 92–104). -/
def repository_models (status : Nat) (bodyText : String) :
    Except String RepositoryModelResponse :=
  match fromStr decodeRepositoryModelResponse bodyText with
  | .error e => .error e
  | .ok parsed =>
    if isSuccessStatus status then .ok parsed
    else .error ("Request failed with status: " ++ toString status)

/-- pub async fn metrics (lib.rs lines 106–118). -/
def metrics (status : Nat) (bodyText : String) : Except String MetricsResponse :=
  match fromStr decodeMetricsResponse bodyText with
  | .error e => .error e
  | .ok parsed =>
    if isSuccessStatus status then .ok parsed
    else .error ("Request failed with status: " ++ toString status)

/-- pub async fn load_model (lib.rs lines 120–145): the error branch formats
the status and the raw body text. -/
def load_model (status : Nat) (bodyText : String) :
    Except String GenericMessageResponse :=
  match fromStr decodeGenericMessageResponse bodyText with
  | .error e => .error e
  | .ok parsed =>
    if isSuccessStatus status then .ok parsed
    else
      .error ("Request failed with status: " ++ toString status ++
        " and body: " ++ bodyText)

/-- pub async fn unload_model (lib.rs lines 147–171). -/
def unload_model (status : Nat) (bodyText : String) :
    Except String GenericMessageResponse :=
  match fromStr decodeGenericMessageResponse bodyText with
  | .error e => .error e
  | .ok parsed =>
    if isSuccessStatus status then .ok parsed
    else
      .error ("Request failed with status: " ++ toString status ++
        " and body: " ++ bodyText)

/-- pub async fn delete_model (lib.rs lines 173–197). -/
def delete_model (status : Nat) (bodyText : String) :
    Except String GenericMessageResponse :=
  match fromStr decodeGenericMessageResponse bodyText with
  | .error e => .error e
  | .ok parsed =>
    if isSuccessStatus status then .ok parsed
    else
      .error ("Request failed with status: " ++ toString status ++
        " and body: " ++ bodyText)

/-- pub async fn embed (lib.rs lines 247–279): when both the text and the
image inputs are `None` it returns `Ok` with an empty response before any
request is built; otherwise it builds the payload and goes through `retry`.
The event trace records the network activity (empty = no call made). -/
def embed (cloneable : Bool) (env : Nat → Net) (retries delayMs : Nat)
    (text image : Option (List String)) :
    Except String EmbeddingResponse × List Ev :=
  if text.isNone && image.isNone then
    (.ok { text_embeddings := none, image_embeddings := none,
           processing_time_ms := 0 }, [])
  else
    retry (fromStr decodeEmbeddingResponse) cloneable env retries delayMs

/-- Canonical event trace of a run of `k` sends with one inter-attempt sleep
in every gap and no sleep after the last send. -/
def altTrace (d : Nat) : Nat → List Ev
  | 0 => []
  | 1 => [Ev.send]
  | k + 2 => Ev.send :: Ev.sleep d :: altTrace d (k + 1)

/-- Substring relation on strings, used to express that an error message
contains a given piece of text verbatim. -/
def strContains (hay needle : String) : Prop := List.IsInfix needle.data hay.data

instance (hay needle : String) : Decidable (strContains hay needle) :=
  inferInstanceAs (Decidable (List.IsInfix needle.data hay.data))

/-! ## Helper lemmas about the retry loop -/

theorem altTrace_count_send (d : Nat) : ∀ k, (altTrace d k).count Ev.send = k
  | 0 => rfl
  | 1 => rfl
  | k + 2 => by
    have ih := altTrace_count_send d (k + 1)
    simp [altTrace, List.count_cons, ih]

theorem retryAux_cons (decode : String → Except String T) (d : Nat) (o : Net)
    (rest : List Net) (le : Option String) :
    retryAux decode true d (o :: rest) le =
      match attemptOutcome decode o with
      | .success v => (.ok v, [Ev.send])
      | .fatal msg => (.error msg, [Ev.send])
      | .failure reason =>
        let next := retryAux decode true d rest (some reason)
        (next.1, Ev.send :: (if rest.isEmpty then [] else [Ev.sleep d]) ++ next.2) := by
  simp [retryAux]

/-- Running the loop over attempts that all record a failure, ending in an
attempt whose failure reason is `r`, exhausts every attempt and reports `r`. -/
theorem retryAux_exhaust (decode : String → Except String T) (d : Nat) :
    ∀ (os : List Net) (o : Net) (r : String) (le : Option String),
    (∀ x ∈ os, ∃ s, attemptOutcome decode x = .failure s) →
    attemptOutcome decode o = .failure r →
    retryAux decode true d (os ++ [o]) le = (.error r, altTrace d (os.length + 1)) := by
  intro os
  induction os with
  | nil =>
    intro o r le _ hlast
    rw [List.nil_append, retryAux_cons, hlast]
    simp [retryAux, altTrace]
  | cons a as ih =>
    intro o r le hall hlast
    obtain ⟨s, hs⟩ := hall a (by simp)
    rw [List.cons_append, retryAux_cons, hs]
    have hres := ih o r (some s) (fun x hx => hall x (by simp [hx])) hlast
    have hemp : (as ++ [o]).isEmpty = false := by cases as <;> rfl
    simp only [hres, hemp]
    have hlen : (a :: as).length + 1 = as.length + 1 + 1 := by simp
    rw [hlen]
    simp [altTrace]

/-- Any run of the loop with a cloneable request produces the canonical
alternating trace for some positive number of sends. -/
theorem retryAux_trace_shape (decode : String → Except String T) (d : Nat) :
    ∀ (os : List Net) (le : Option String), os ≠ [] →
    ∃ k, k + 1 ≤ os.length ∧ (retryAux decode true d os le).2 = altTrace d (k + 1) := by
  intro os
  induction os with
  | nil => intro le h; exact absurd rfl h
  | cons a as ih =>
    intro le _
    cases h : attemptOutcome decode a with
    | success v => exact ⟨0, by simp, by rw [retryAux_cons, h]; rfl⟩
    | fatal msg => exact ⟨0, by simp, by rw [retryAux_cons, h]; rfl⟩
    | failure r =>
      cases as with
      | nil =>
        refine ⟨0, by simp, ?_⟩
        rw [retryAux_cons, h]
        simp [retryAux, altTrace]
      | cons b bs =>
        obtain ⟨k, hk, htr⟩ := ih (some r) (by simp)
        refine ⟨k + 1, by simpa using Nat.succ_le_succ hk, ?_⟩
        rw [retryAux_cons, h]
        simp only [List.isEmpty_cons, htr]
        simp [altTrace]

/-- The value returned by the loop does not depend on the delay. -/
theorem retryAux_fst_delay_irrelevant (decode : String → Except String T)
    (d d' : Nat) : ∀ (os : List Net) (le : Option String),
    (retryAux decode true d os le).1 = (retryAux decode true d' os le).1 := by
  intro os
  induction os with
  | nil => intro le; rfl
  | cons a as ih =>
    intro le
    cases h : attemptOutcome decode a with
    | success v => rw [retryAux_cons, retryAux_cons, h]
    | fatal msg => rw [retryAux_cons, retryAux_cons, h]
    | failure r =>
      rw [retryAux_cons, retryAux_cons, h]
      simpa using ih (some r)

/-- Splitting the planned attempt list at attempt `i`. -/
theorem range_map_split (f : Nat → α) {i n : Nat} (h : i ≤ n) :
    (List.range (n + 1)).map f =
      (List.range i).map f ++
        f i :: ((List.range (n - i)).map fun k => f (i + (k + 1))) := by
  have hn : n + 1 = i + (n - i + 1) := by omega
  rw [hn, List.range_add, List.map_append, List.range_succ_eq_map]
  simp [List.map_map, Function.comp_def]

/-- A prefix of recorded failures followed by an attempt whose outcome is
fatal: the loop stops at the fatal attempt with its message, having slept only
in the gaps before it. -/
theorem retryAux_prefix_failures_then_fatal (decode : String → Except String T)
    (d : Nat) : ∀ (pre : List Net) (o : Net) (suf : List Net) (e : String)
    (le : Option String),
    (∀ x ∈ pre, ∃ r, attemptOutcome decode x = .failure r) →
    attemptOutcome decode o = .fatal e →
    retryAux decode true d (pre ++ o :: suf) le =
      (.error e, altTrace d (pre.length + 1)) := by
  intro pre
  induction pre with
  | nil =>
    intro o suf e le _ hfat
    rw [List.nil_append, retryAux_cons, hfat]
    rfl
  | cons a as ih =>
    intro o suf e le hall hfat
    obtain ⟨s, hs⟩ := hall a (by simp)
    rw [List.cons_append, retryAux_cons, hs]
    have hres := ih o suf e (some s) (fun x hx => hall x (by simp [hx])) hfat
    have hemp : (as ++ o :: suf).isEmpty = false := by cases as <;> rfl
    simp only [hres, hemp]
    have hlen : (a :: as).length + 1 = as.length + 1 + 1 := by simp
    rw [hlen]
    simp [altTrace]

/-- Characterization of the successful runs of the loop over the planned
attempts `s, s+1, …, s+k-1`: a value is returned exactly when some planned
attempt succeeds and every planned attempt before it records a failure. -/
theorem retryAux_ok_iff (decode : String → Except String T) (env : Nat → Net)
    (d : Nat) : ∀ (k s : Nat) (le : Option String) (v : T),
    (retryAux decode true d ((List.range' s k).map env) le).1 = .ok v ↔
    ∃ i, s ≤ i ∧ i < s + k ∧ attemptOutcome decode (env i) = .success v ∧
      ∀ j, s ≤ j → j < i → ∃ r, attemptOutcome decode (env j) = .failure r := by
  intro k
  induction k with
  | zero =>
    intro s le v
    simp only [List.range'_zero, List.map_nil, retryAux]
    constructor
    · intro hv; exact absurd hv (by simp)
    · rintro ⟨i, hsi, hik, -, -⟩; omega
  | succ k ih =>
    intro s le v
    rw [List.range'_succ, List.map_cons]
    cases h : attemptOutcome decode (env s) with
    | success w =>
      rw [retryAux_cons, h]
      constructor
      · intro hv
        have hwv : w = v := by simpa using hv
        subst hwv
        exact ⟨s, Nat.le_refl s, by omega, h, fun j hj1 hj2 => absurd hj2 (by omega)⟩
      · rintro ⟨i, hsi, hik, hsucc, hprev⟩
        rcases Nat.eq_or_lt_of_le hsi with rfl | hlt
        · rw [h] at hsucc
          simpa using hsucc
        · obtain ⟨r, hr⟩ := hprev s (Nat.le_refl s) hlt
          rw [h] at hr
          exact AttemptRes.noConfusion hr
    | fatal msg =>
      rw [retryAux_cons, h]
      constructor
      · intro hv; exact absurd hv (by simp)
      · rintro ⟨i, hsi, hik, hsucc, hprev⟩
        rcases Nat.eq_or_lt_of_le hsi with rfl | hlt
        · rw [h] at hsucc
          exact AttemptRes.noConfusion hsucc
        · obtain ⟨r, hr⟩ := hprev s (Nat.le_refl s) hlt
          rw [h] at hr
          exact AttemptRes.noConfusion hr
    | failure r =>
      rw [retryAux_cons, h]
      dsimp only
      constructor
      · intro hv
        obtain ⟨i, h1, h2, h3, h4⟩ := (ih (s + 1) (some r) v).mp hv
        refine ⟨i, by omega, by omega, h3, fun j hj1 hj2 => ?_⟩
        by_cases hjs : j = s
        · exact ⟨r, hjs ▸ h⟩
        · exact h4 j (by omega) hj2
      · rintro ⟨i, h1, h2, h3, h4⟩
        have his : s < i := by
          rcases Nat.eq_or_lt_of_le h1 with rfl | hlt
          · rw [h] at h3
            exact AttemptRes.noConfusion h3
          · exact hlt
        exact (ih (s + 1) (some r) v).mpr
          ⟨i, by omega, by omega, h3, fun j hj1 hj2 => h4 j (by omega) hj2⟩

/-- Boundary of the u16 increment: at `retries = u16::MAX` the source's
`retries + 1` wraps to zero (release-profile wrapping arithmetic), so the loop
body never runs — no clone, no send, no sleep — and the `Unknown error`
placeholder is returned, whatever the network, decoder, delay or
cloneability. -/
theorem retry_wraps_at_u16_max (decode : String → Except String T)
    (cloneable : Bool) (env : Nat → Net) (d : Nat) :
    retry decode cloneable env 65535 d = (.error "Unknown error", []) := rfl

/-! ## Claims about the retry executor -/

/-- C1: against an endpoint where every planned attempt fails (send failure,
non-success status, or undecodable body — i.e. every attempt records a
failure reason), `retry` with `retries = n` performs exactly `n + 1` send
attempts, sleeps only in the gaps, and returns the error recorded on the last
attempt (last-failure-wins).  The bound `n ≤ 65534` covers every u16 budget
below `u16::MAX`; at exactly `retries = 65535` the source's `retries + 1`
wraps to zero and the loop never runs (`retry_wraps_at_u16_max`). -/
theorem retry_always_failing_exhausts_with_last_reason
    (decode : String → Except String T) (env : Nat → Net) (n d : Nat)
    (r : String) (hn : n ≤ 65534)
    (hfail : ∀ i, i ≤ n → ∃ s, attemptOutcome decode (env i) = .failure s)
    (hlast : attemptOutcome decode (env n) = .failure r) :
    retry decode true env n d = (.error r, altTrace d (n + 1)) ∧
    (retry decode true env n d).2.count Ev.send = n + 1 := by
  have hmod : (n + 1) % 65536 = n + 1 := Nat.mod_eq_of_lt (by omega)
  have hsplit : (List.range (n + 1)).map env = (List.range n).map env ++ [env n] := by
    rw [List.range_succ, List.map_append, List.map_singleton]
  have hall : ∀ x ∈ (List.range n).map env, ∃ s, attemptOutcome decode x = .failure s := by
    intro x hx
    obtain ⟨i, hi, rfl⟩ := List.mem_map.mp hx
    exact hfail i (Nat.le_of_lt (List.mem_range.mp hi))
  have hmain : retry decode true env n d = (.error r, altTrace d (n + 1)) := by
    rw [retry, hmod, hsplit, retryAux_exhaust decode d _ _ r none hall hlast]
    simp
  refine ⟨hmain, ?_⟩
  rw [hmain]
  exact altTrace_count_send d (n + 1)

/-- C1 witness: three planned attempts against an endpoint that always answers
status 500 with body `bad`: three sends, two sleeps, and the last status error
is reported. -/
theorem retry_always_failing_exhausts_with_last_reason_witness :
    retry (fun s => fromStr decodeGenericMessageResponse s) true
        (fun _ => Net.resp 500 "bad") 2 7 =
      (.error "Request failed with status: 500 (body: bad)", altTrace 7 3) ∧
    (retry (fun s => fromStr decodeGenericMessageResponse s) true
        (fun _ => Net.resp 500 "bad") 2 7).2.count Ev.send = 3 :=
  retry_always_failing_exhausts_with_last_reason
    (fun s => fromStr decodeGenericMessageResponse s) (fun _ => Net.resp 500 "bad")
    2 7 "Request failed with status: 500 (body: bad)" (by omega)
    (fun _ _ => ⟨"Request failed with status: 500 (body: bad)", rfl⟩) rfl

/-- C2: the executor returns `Ok v` exactly when some planned attempt gets a
success status whose body decodes to `v` and every earlier attempt records a
failure — the sole success exit; moreover a success status with an undecodable
body is classified as a recorded (retryable) failure whose reason carries the
raw body, never as a success or a default value.  The bound `n ≤ 65534`
excludes only `u16::MAX`, where the wrapped loop bound makes the program
return an error with no attempt at all (`retry_wraps_at_u16_max`). -/
theorem retry_ok_iff_some_attempt_decodes
    (decode : String → Except String T) (env : Nat → Net) (n d : Nat)
    (hn : n ≤ 65534) :
    (∀ v, (retry decode true env n d).1 = .ok v ↔
      ∃ i, i ≤ n ∧ attemptOutcome decode (env i) = .success v ∧
        ∀ j, j < i → ∃ r, attemptOutcome decode (env j) = .failure r) ∧
    (∀ s b e, isSuccessStatus s = true → decode b = .error e →
      attemptOutcome decode (.resp s b) =
        .failure ("Failed to parse response: " ++ e ++ " (body: " ++ b ++ ")")) := by
  have hmod : (n + 1) % 65536 = n + 1 := Nat.mod_eq_of_lt (by omega)
  refine ⟨?_, ?_⟩
  · intro v
    rw [retry, hmod, List.range_eq_range']
    rw [retryAux_ok_iff decode env d (n + 1) 0 none v]
    constructor
    · rintro ⟨i, -, h2, h3, h4⟩
      exact ⟨i, by omega, h3, fun j hj => h4 j (Nat.zero_le j) hj⟩
    · rintro ⟨i, h1, h3, h4⟩
      exact ⟨i, Nat.zero_le i, by omega, h3, fun j _ hj => h4 j hj⟩
  · intro s b e hs he
    rw [attemptOutcome, hs]
    simp [he]

/-- C2 witness: a first attempt with status 500 followed by an attempt whose
body decodes returns the decoded value; and a success status 201 with the
undecodable body `oops` is classified as a recorded failure carrying the raw
body. -/
theorem retry_ok_iff_some_attempt_decodes_witness :
    (retry (fun s => fromStr decodeGenericMessageResponse s) true
        (fun i => if i = 0 then Net.resp 500 "bad"
          else Net.resp 200 "\x7b\"message\":\"ok\"\x7d") 1 5).1 =
      .ok { message := "ok" } ∧
    attemptOutcome (fun s => fromStr decodeGenericMessageResponse s)
        (.resp 201 "oops") =
      .failure "Failed to parse response: unexpected character (body: oops)" := by
  constructor
  · exact ((retry_ok_iff_some_attempt_decodes
      (fun s => fromStr decodeGenericMessageResponse s)
      (fun i => if i = 0 then Net.resp 500 "bad"
        else Net.resp 200 "\x7b\"message\":\"ok\"\x7d") 1 5 (by omega)).1
        { message := "ok" }).mpr
      ⟨1, Nat.le_refl 1, rfl, fun j hj => by
        have hj0 : j = 0 := by omega
        subst hj0
        exact ⟨"Request failed with status: 500 (body: bad)", rfl⟩⟩
  · exact (retry_ok_iff_some_attempt_decodes
      (fun s => fromStr decodeGenericMessageResponse s)
      (fun _ => Net.resp 0 "") 0 0 (by omega)).2 201 "oops" "unexpected character"
      rfl rfl

/-- C3 counterexample: budget of two attempts (retries = 1), first attempt
fails while reading the response body, second attempt would succeed — yet the
executor exits early after a single send, returning the body-read error
instead of continuing to the next attempt. -/
theorem retry_body_read_failure_exits_early :
    retry (fun s => fromStr decodeGenericMessageResponse s) true
        (fun i => if i = 0 then Net.bodyErr "error decoding response body"
          else Net.resp 200 "\x7b\"message\":\"ok\"\x7d") 1 10 =
      (.error "error decoding response body", [Ev.send]) := rfl

/-- C3 amended: a failure to send the request is recorded and the loop
continues to the next attempt, but a failure while reading the response body
is propagated immediately: after `i` attempts with recorded failures (send
errors included), a body-read failure at attempt `i` ends the run with that
error after exactly `i + 1` sends, regardless of the remaining budget.  The
bound `n ≤ 65534` covers every u16 budget below `u16::MAX`, where the wrapped
loop bound would instead run no attempt at all (`retry_wraps_at_u16_max`). -/
theorem retry_send_failures_continue_body_read_aborts
    (decode : String → Except String T) (env : Nat → Net) (n d i : Nat)
    (e : String) (hn : n ≤ 65534) (hi : i ≤ n)
    (hfail : ∀ j, j < i → ∃ r, attemptOutcome decode (env j) = .failure r)
    (hbody : env i = .bodyErr e) :
    retry decode true env n d = (.error e, altTrace d (i + 1)) ∧
    (retry decode true env n d).2.count Ev.send = i + 1 := by
  have hsplit := range_map_split env hi
  have hall : ∀ x ∈ (List.range i).map env,
      ∃ s, attemptOutcome decode x = .failure s := by
    intro x hx
    obtain ⟨j, hj, rfl⟩ := List.mem_map.mp hx
    exact hfail j (List.mem_range.mp hj)
  have hfat : attemptOutcome decode (env i) = .fatal e := by rw [hbody]; rfl
  have hmod : (n + 1) % 65536 = n + 1 := Nat.mod_eq_of_lt (by omega)
  have hmain : retry decode true env n d = (.error e, altTrace d (i + 1)) := by
    rw [retry, hmod, hsplit,
      retryAux_prefix_failures_then_fatal decode d _ _ _ e none hall hfat]
    simp
  refine ⟨hmain, ?_⟩
  rw [hmain]
  exact altTrace_count_send d (i + 1)

/-- C3 amended witness: attempt 0 is a send failure (recorded, retried),
attempt 1 fails reading the body: the run ends there with two sends and one
sleep although the budget allowed three attempts. -/
theorem retry_send_failures_continue_body_read_aborts_witness :
    retry (fun s => fromStr decodeGenericMessageResponse s) true
        (fun j => if j = 0 then Net.sendErr "connection refused"
          else Net.bodyErr "read failed") 2 5 =
      (.error "read failed", altTrace 5 2) ∧
    (retry (fun s => fromStr decodeGenericMessageResponse s) true
        (fun j => if j = 0 then Net.sendErr "connection refused"
          else Net.bodyErr "read failed") 2 5).2.count Ev.send = 2 :=
  retry_send_failures_continue_body_read_aborts
    (fun s => fromStr decodeGenericMessageResponse s)
    (fun j => if j = 0 then Net.sendErr "connection refused"
      else Net.bodyErr "read failed") 2 5 1 "read failed" (by omega) (by omega)
    (fun j hj => by
      have hj0 : j = 0 := by omega
      subst hj0
      exact ⟨"Network error: connection refused", rfl⟩) rfl

/-- C6: when the request descriptor cannot be duplicated, `retry` fails
immediately with the fatal clone error: the trace is empty (no send, no
sleep), no attempt is consumed, and no retry happens, for every budget in
which the loop runs at all (`n ≤ 65534`, every u16 value below `u16::MAX`; at
exactly `retries = 65535` the wrapped loop bound returns `Unknown error`
before `try_clone` is ever called, see `retry_wraps_at_u16_max`). -/
theorem retry_clone_failure_is_fatal (decode : String → Except String T)
    (env : Nat → Net) (n d : Nat) (hn : n ≤ 65534) :
    retry decode false env n d = (.error "Failed to clone request", []) := by
  have hmod : (n + 1) % 65536 = n + 1 := Nat.mod_eq_of_lt (by omega)
  rw [retry, hmod]
  cases h : (List.range (n + 1)).map env with
  | nil =>
    have hlen := congrArg List.length h
    simp at hlen
  | cons a as => simp [retryAux]

/-- C6 witness: a non-cloneable request with a budget of four attempts fails
at once with the clone error and an empty trace. -/
theorem retry_clone_failure_is_fatal_witness :
    retry (fun s => fromStr decodeGenericMessageResponse s) false
      (fun _ => Net.resp 200 "\x7b\"message\":\"ok\"\x7d") 3 5 =
      (.error "Failed to clone request", []) :=
  retry_clone_failure_is_fatal
    (fun s => fromStr decodeGenericMessageResponse s)
    (fun _ => Net.resp 200 "\x7b\"message\":\"ok\"\x7d") 3 5 (by omega)

/-- C7: every run's trace is the canonical alternating trace — the delay
occurs exactly once between consecutive sends and never after the final send;
`retries = 0` gives exactly one send and no sleep; and the returned result is
independent of the delay value, so a delay of zero is legal and merely removes
the pause.  The bound `n ≤ 65534` covers every u16 budget below `u16::MAX`,
where the wrapped loop bound gives an empty trace (`retry_wraps_at_u16_max`). -/
theorem retry_delay_per_gap (decode : String → Except String T)
    (env : Nat → Net) (n d : Nat) (hn : n ≤ 65534) :
    (∃ k, k ≤ n ∧ (retry decode true env n d).2 = altTrace d (k + 1)) ∧
    (retry decode true env 0 d).2 = [Ev.send] ∧
    (retry decode true env n d).1 = (retry decode true env n 0).1 := by
  have hmod : (n + 1) % 65536 = n + 1 := Nat.mod_eq_of_lt (by omega)
  have hne : (List.range (n + 1)).map env ≠ [] := by
    intro hc
    have hlen := congrArg List.length hc
    simp at hlen
  obtain ⟨k, hk, htr⟩ :=
    retryAux_trace_shape decode d ((List.range (n + 1)).map env) none hne
  refine ⟨⟨k, ?_, ?_⟩, ?_, ?_⟩
  · have hlen : ((List.range (n + 1)).map env).length = n + 1 := by simp
    omega
  · rw [retry, hmod]
    exact htr
  · obtain ⟨k0, hk0, htr0⟩ :=
      retryAux_trace_shape decode d ((List.range (0 + 1)).map env) none
        (by simp)
    have hlen0 : ((List.range (0 + 1)).map env).length = 1 := by simp
    have hk00 : k0 = 0 := by omega
    subst hk00
    rw [retry]
    exact htr0
  · rw [retry, retry]
    exact retryAux_fst_delay_irrelevant decode d 0 _ none

/-- C7 witness: a concrete three-attempt run at delay 7: alternating trace,
a single send at budget zero, and a result unchanged at delay zero. -/
theorem retry_delay_per_gap_witness :
    (∃ k, k ≤ 2 ∧ (retry (fun s => fromStr decodeGenericMessageResponse s) true
        (fun _ => Net.resp 500 "bad") 2 7).2 = altTrace 7 (k + 1)) ∧
    (retry (fun s => fromStr decodeGenericMessageResponse s) true
        (fun _ => Net.resp 500 "bad") 0 7).2 = [Ev.send] ∧
    (retry (fun s => fromStr decodeGenericMessageResponse s) true
        (fun _ => Net.resp 500 "bad") 2 7).1 =
      (retry (fun s => fromStr decodeGenericMessageResponse s) true
        (fun _ => Net.resp 500 "bad") 2 0).1 :=
  retry_delay_per_gap (fun s => fromStr decodeGenericMessageResponse s)
    (fun _ => Net.resp 500 "bad") 2 7 (by omega)

/-! ## Claims about the client façade -/

theorem strContains_append_right (a b : String) : strContains (a ++ b) b := by
  rw [strContains, String.data_append]
  exact (List.suffix_append a.data b.data).isInfix

theorem strContains_middle (a b c : String) : strContains (a ++ b ++ c) b := by
  rw [strContains, String.data_append, String.data_append]
  exact List.infix_append a.data b.data c.data

/-- C5: calling embed with both the text and the image inputs absent returns
`Ok` immediately with no text embeddings, no image embeddings and a processing
time of zero, and the event trace is empty — no network call is made; it is
not an error.  This holds for every environment and retry policy. -/
theorem embed_both_none_local_noop (cloneable : Bool) (env : Nat → Net)
    (retries delayMs : Nat) :
    embed cloneable env retries delayMs none none =
      (.ok { text_embeddings := none, image_embeddings := none,
             processing_time_ms := 0 }, []) := rfl

/-- C4 counterexample: server_health with the non-success status 500 and a
decodable body surfaces an error that contains the numeric status but not the
literal response body text — so it is not true that every non-retried
operation's status error carries the body verbatim. -/
theorem server_health_error_omits_body :
    server_health 500 "\x7b\"message\":\"down\"\x7d" =
      .error "Request failed with status: 500" ∧
    ¬ strContains "Request failed with status: 500"
        "\x7b\"message\":\"down\"\x7d" :=
  ⟨rfl, by decide⟩

/-- C4 amended: when the body decodes as the expected type and the status is
not a success, load_model, unload_model and delete_model surface the error
`Request failed with status: s and body: body`, containing both the numeric
status and the literal body text; server_health, loaded_models,
repository_models and metrics surface `Request failed with status: s`, which
contains the numeric status but omits the body. -/
theorem nonretried_error_messages (s : Nat) (body : String)
    (hs : isSuccessStatus s = false) :
    (∀ p, fromStr decodeGenericMessageResponse body = .ok p →
      load_model s body =
        .error ("Request failed with status: " ++ toString s ++
          " and body: " ++ body) ∧
      unload_model s body =
        .error ("Request failed with status: " ++ toString s ++
          " and body: " ++ body) ∧
      delete_model s body =
        .error ("Request failed with status: " ++ toString s ++
          " and body: " ++ body) ∧
      server_health s body =
        .error ("Request failed with status: " ++ toString s)) ∧
    (∀ p, fromStr decodeLoadedModelResponse body = .ok p →
      loaded_models s body =
        .error ("Request failed with status: " ++ toString s)) ∧
    (∀ p, fromStr decodeRepositoryModelResponse body = .ok p →
      repository_models s body =
        .error ("Request failed with status: " ++ toString s)) ∧
    (∀ p, fromStr decodeMetricsResponse body = .ok p →
      metrics s body = .error ("Request failed with status: " ++ toString s)) ∧
    strContains ("Request failed with status: " ++ toString s ++
      " and body: " ++ body) (toString s) ∧
    strContains ("Request failed with status: " ++ toString s ++
      " and body: " ++ body) body ∧
    strContains ("Request failed with status: " ++ toString s) (toString s) := by
  refine ⟨?_, ?_, ?_, ?_, ?_, ?_, ?_⟩
  · intro p hp
    refine ⟨?_, ?_, ?_, ?_⟩ <;> simp [load_model, unload_model, delete_model,
      server_health, hp, hs]
  · intro p hp
    simp [loaded_models, hp, hs]
  · intro p hp
    simp [repository_models, hp, hs]
  · intro p hp
    simp [metrics, hp, hs]
  · rw [String.append_assoc ("Request failed with status: " ++ toString s)
      " and body: " body]
    exact strContains_middle "Request failed with status: " (toString s)
      (" and body: " ++ body)
  · exact strContains_append_right
      ("Request failed with status: " ++ toString s ++ " and body: ") body
  · exact strContains_append_right ("Request failed with status: ") (toString s)

/-- C4 amended witness: status 404 with concrete decodable bodies: the model
lifecycle call carries status and body, the listing and metrics calls carry
the status only. -/
theorem nonretried_error_messages_witness :
    load_model 404 "\x7b\"message\":\"gone\"\x7d" =
      .error "Request failed with status: 404 and body: \x7b\"message\":\"gone\"\x7d" ∧
    loaded_models 404 "\x7b\"models\":[]\x7d" =
      .error "Request failed with status: 404" ∧
    metrics 404 "\x7b\"modelStats\":[]\x7d" =
      .error "Request failed with status: 404" := by
  refine ⟨?_, ?_, ?_⟩
  · exact ((nonretried_error_messages 404 "\x7b\"message\":\"gone\"\x7d" rfl).1
      { message := "gone" } rfl).1
  · exact (nonretried_error_messages 404 "\x7b\"models\":[]\x7d" rfl).2.1
      { models := [] } rfl
  · exact (nonretried_error_messages 404 "\x7b\"modelStats\":[]\x7d" rfl).2.2.2.1
      { model_stats := [] } rfl

/-- C10: every non-retried operation parses the body before inspecting the
status: whenever the body fails to decode as the expected type, the operation
returns exactly the decode error — for every status value, success or not —
so the status code is absent from the surfaced error, and a success-status
response with an undecodable body is an error, not a value. -/
theorem nonretried_decode_before_status (s : Nat) (body : String) (e : String) :
    (fromStr decodeGenericMessageResponse body = .error e →
      server_health s body = .error e ∧ load_model s body = .error e ∧
      unload_model s body = .error e ∧ delete_model s body = .error e) ∧
    (fromStr decodeLoadedModelResponse body = .error e →
      loaded_models s body = .error e) ∧
    (fromStr decodeRepositoryModelResponse body = .error e →
      repository_models s body = .error e) ∧
    (fromStr decodeMetricsResponse body = .error e →
      metrics s body = .error e) := by
  refine ⟨?_, ?_, ?_, ?_⟩
  · intro h
    refine ⟨?_, ?_, ?_, ?_⟩ <;>
      simp [server_health, load_model, unload_model, delete_model, h]
  · intro h
    simp [loaded_models, h]
  · intro h
    simp [repository_models, h]
  · intro h
    simp [metrics, h]

/-- C10 witness: the undecodable body `oops` with status 500 (and with the
success status 200) surfaces the parse error itself, without the status. -/
theorem nonretried_decode_before_status_witness :
    server_health 500 "oops" = .error "unexpected character" ∧
    loaded_models 500 "oops" = .error "unexpected character" ∧
    metrics 200 "oops" = .error "unexpected character" := by
  refine ⟨?_, ?_, ?_⟩
  · exact ((nonretried_decode_before_status 500 "oops" "unexpected character").1
      rfl).1
  · exact (nonretried_decode_before_status 500 "oops" "unexpected character").2.1
      rfl
  · exact (nonretried_decode_before_status 200 "oops"
      "unexpected character").2.2.2 rfl

/-! ## Contract layer lemmas -/

@[simp] theorem exceptBindOk (a : α) (f : α → Except ε β) :
    (Except.ok a : Except ε α) >>= f = f a := rfl

@[simp] theorem exceptBindErr (e : ε) (f : α → Except ε β) :
    (Except.error e : Except ε α) >>= f = .error e := rfl

@[simp] theorem exceptMapOk (a : α) (f : α → β) :
    (Except.ok a : Except ε α).map f = .ok (f a) := rfl

@[simp] theorem exceptMapErr (e : ε) (f : α → β) :
    (Except.error e : Except ε α).map f = .error e := rfl

theorem lookupField_cons (k : String) (v : Json) (rest : List (String × Json))
    (name : String) :
    lookupField ((k, v) :: rest) name =
      if k = name then some v else lookupField rest name := rfl

theorem lookupField_append (fs extra : List (String × Json)) (name : String) :
    lookupField (fs ++ extra) name =
      (lookupField fs name).orElse (fun _ => lookupField extra name) := by
  induction fs with
  | nil => rfl
  | cons kv rest ih =>
    obtain ⟨k, v⟩ := kv
    rw [List.cons_append, lookupField_cons, lookupField_cons]
    by_cases h : k = name
    · simp [h]
    · simp [h, ih]

theorem lookupField_all_miss (extra : List (String × Json)) (name : String)
    (h : ∀ kv ∈ extra, kv.1 ≠ name) : lookupField extra name = none := by
  induction extra with
  | nil => rfl
  | cons kv rest ih =>
    obtain ⟨k, v⟩ := kv
    rw [lookupField_cons, if_neg (h (k, v) (by simp))]
    exact ih fun kv hkv => h kv (by simp [hkv])

theorem lookupField_append_skip (fs extra : List (String × Json)) (name : String)
    (h : ∀ kv ∈ extra, kv.1 ≠ name) :
    lookupField (fs ++ extra) name = lookupField fs name := by
  rw [lookupField_append, lookupField_all_miss extra name h]
  cases lookupField fs name <;> rfl

theorem reqField_no_field (fs : List (String × Json)) (name : String)
    (sub : Json → Except String α) (h : lookupField fs name = none) :
    reqField fs name sub = .error ("missing field " ++ name) := by
  rw [reqField, h]

theorem reqField_found (fs : List (String × Json)) (name : String)
    (sub : Json → Except String α) (j : Json)
    (h : lookupField fs name = some j) : reqField fs name sub = sub j := by
  rw [reqField, h]

theorem mapM_encode_ok {β : Type u} {γ : Type v} (sub : γ → Except String β)
    (enc : β → γ) (hsub : ∀ x, sub (enc x) = .ok x) :
    ∀ xs : List β, (xs.map enc).mapM sub = Except.ok xs := by
  intro xs
  induction xs with
  | nil => rfl
  | cons x xs ih =>
    rw [List.map_cons, List.mapM_cons, hsub x, ih]
    rfl

theorem decodeList_encode (sub : Json → Except String α) (enc : α → Json)
    (hsub : ∀ x, sub (enc x) = .ok x) (xs : List α) :
    decodeList sub (.arr (xs.map enc)) = .ok xs :=
  mapM_encode_ok sub enc hsub xs

@[simp] theorem decodeStrList_encodeStrList (xs : List String) :
    decodeStrList (encodeStrList xs) = .ok xs :=
  decodeList_encode asString Json.str (fun _ => rfl) xs

@[simp] theorem decodeMatrix_encodeMatrix (m : List (List F32)) :
    decodeMatrix (encodeMatrix m) = .ok m :=
  decodeList_encode (decodeList asNum) (fun row => .arr (row.map Json.num))
    (fun row => decodeList_encode asNum Json.num (fun _ => rfl) row) m

theorem decodeMap_encodeMap (sub : Json → Except String α) (enc : α → Json)
    (hsub : ∀ x, sub (enc x) = .ok x) (kvs : List (String × α)) :
    decodeMap sub (encodeMap enc kvs) = .ok kvs := by
  show (kvs.map (fun p => (p.1, enc p.2))).mapM
      (fun q => (sub q.2).map fun v => (q.1, v)) = Except.ok kvs
  exact mapM_encode_ok _ _
    (fun p => by
      show (sub (enc p.2)).map (fun v => (p.1, v)) = Except.ok p
      rw [hsub p.2]
      rfl) kvs

@[simp] theorem decodeMap_str (kvs : List (String × String)) :
    decodeMap asString (encodeMap Json.str kvs) = .ok kvs :=
  decodeMap_encodeMap asString Json.str (fun _ => rfl) kvs

theorem asNatBelow_encodeNat (bound x : Nat) (h : x < bound) :
    asNatBelow bound (encodeNat x) = .ok x := by
  have hc : ((x : Rat)).den = 1 ∧ 0 ≤ ((x : Rat)).num ∧
      ((x : Rat)).num < (bound : Int) := by
    refine ⟨Rat.den_natCast x, ?_, ?_⟩
    · simp
    · simp only [Rat.num_natCast]
      exact_mod_cast h
  rw [encodeNat, asNatBelow, if_pos hc]
  simp

/-- Value-level behaviour of an optional field whose stored value is the
encoding of `v`. -/
theorem cond_encodeOpt (enc : α → Json) (sub : Json → Except String α)
    (v : Option α) (hnn : ∀ x, (enc x).isNull = false)
    (hsub : ∀ x ∈ v, sub (enc x) = .ok x) :
    cond (encodeOpt enc v).isNull (Except.ok none)
      ((sub (encodeOpt enc v)).map some) = .ok v := by
  cases v with
  | none => rfl
  | some x =>
    rw [encodeOpt, hnn x, hsub x rfl]
    rfl

/-! ### Encode-then-decode round trips, one per contract type -/

@[simp] theorem modelLibrary_rt (m : ModelLibrary) :
    decodeModelLibrary (encodeModelLibrary m) = .ok m := by
  cases m <;> rfl

theorem genericMessageResponse_rt (r : GenericMessageResponse) :
    decodeGenericMessageResponse (encodeGenericMessageResponse r) = .ok r := rfl

theorem textEmbeddingRequest_rt (r : TextEmbeddingRequest)
    (hb : ∀ k ∈ r.n_dims, k < 65536) :
    decodeTextEmbeddingRequest (encodeTextEmbeddingRequest r) = .ok r := by
  obtain ⟨name, text, normalize, nDims⟩ := r
  have h1 := cond_encodeOpt Json.bool asBool normalize (fun _ => rfl)
    (fun _ _ => rfl)
  have h2 := cond_encodeOpt encodeNat (asNatBelow 65536) nDims (fun _ => rfl)
    (fun x hx => asNatBelow_encodeNat 65536 x (hb x hx))
  simp [decodeTextEmbeddingRequest, encodeTextEmbeddingRequest, reqField,
    optField, lookupField, asString, h1, h2]

theorem embeddingRequest_rt (r : EmbeddingRequest)
    (hb : ∀ k ∈ r.n_dims, k < 65536) :
    decodeEmbeddingRequest (encodeEmbeddingRequest r) = .ok r := by
  obtain ⟨name, text, image, normalize, nDims, hdrs⟩ := r
  have h1 := cond_encodeOpt encodeStrList decodeStrList text (fun _ => rfl)
    (fun x _ => decodeStrList_encodeStrList x)
  have h2 := cond_encodeOpt encodeStrList decodeStrList image (fun _ => rfl)
    (fun x _ => decodeStrList_encodeStrList x)
  have h3 := cond_encodeOpt Json.bool asBool normalize (fun _ => rfl)
    (fun _ _ => rfl)
  have h4 := cond_encodeOpt encodeNat (asNatBelow 65536) nDims (fun _ => rfl)
    (fun x hx => asNatBelow_encodeNat 65536 x (hb x hx))
  have h5 := cond_encodeOpt (encodeMap Json.str) (decodeMap asString) hdrs
    (fun _ => rfl) (fun x _ => decodeMap_str x)
  simp [decodeEmbeddingRequest, encodeEmbeddingRequest, reqField, optField,
    lookupField, asString, h1, h2, h3, h4, h5]

theorem imageEmbeddingRequest_rt (r : ImageEmbeddingRequest)
    (hb : ∀ k ∈ r.n_dims, k < 65536) :
    decodeImageEmbeddingRequest (encodeImageEmbeddingRequest r) = .ok r := by
  obtain ⟨name, image, normalize, nDims, hdrs⟩ := r
  have h1 := cond_encodeOpt Json.bool asBool normalize (fun _ => rfl)
    (fun _ _ => rfl)
  have h2 := cond_encodeOpt encodeNat (asNatBelow 65536) nDims (fun _ => rfl)
    (fun x hx => asNatBelow_encodeNat 65536 x (hb x hx))
  have h3 := cond_encodeOpt (encodeMap Json.str) (decodeMap asString) hdrs
    (fun _ => rfl) (fun x _ => decodeMap_str x)
  simp [decodeImageEmbeddingRequest, encodeImageEmbeddingRequest, reqField,
    optField, lookupField, asString, h1, h2, h3]

theorem imageClassificationRequest_rt (r : ImageClassificationRequest) :
    decodeImageClassificationRequest (encodeImageClassificationRequest r) =
      .ok r := by
  obtain ⟨name, image, hdrs⟩ := r
  have h1 := cond_encodeOpt (encodeMap Json.str) (decodeMap asString) hdrs
    (fun _ => rfl) (fun x _ => decodeMap_str x)
  simp [decodeImageClassificationRequest, encodeImageClassificationRequest,
    reqField, optField, lookupField, asString, h1]

theorem loadModelRequest_rt (r : LoadModelRequest) :
    decodeLoadModelRequest (encodeLoadModelRequest r) = .ok r := by
  obtain ⟨name, lib⟩ := r
  simp [decodeLoadModelRequest, encodeLoadModelRequest, reqField, lookupField,
    asString]

theorem unloadModelRequest_rt (r : UnloadModelRequest) :
    decodeUnloadModelRequest (encodeUnloadModelRequest r) = .ok r := rfl

theorem modelMetadataRequest_rt (r : ModelMetadataRequest) :
    decodeModelMetadataRequest (encodeModelMetadataRequest r) = .ok r := rfl

theorem loadedModel_rt (r : LoadedModel) :
    decodeLoadedModel (encodeLoadedModel r) = .ok r := by
  obtain ⟨name, lib⟩ := r
  simp [decodeLoadedModel, encodeLoadedModel, reqField, lookupField, asString]

theorem loadedModelResponse_rt (r : LoadedModelResponse) :
    decodeLoadedModelResponse (encodeLoadedModelResponse r) = .ok r := by
  obtain ⟨models⟩ := r
  have h1 := decodeList_encode decodeLoadedModel encodeLoadedModel
    loadedModel_rt models
  simp [decodeLoadedModelResponse, encodeLoadedModelResponse, reqField,
    lookupField, h1]

theorem repositoryModel_rt (r : RepositoryModel) :
    decodeRepositoryModel (encodeRepositoryModel r) = .ok r := rfl

theorem repositoryModelResponse_rt (r : RepositoryModelResponse) :
    decodeRepositoryModelResponse (encodeRepositoryModelResponse r) = .ok r := by
  obtain ⟨models⟩ := r
  have h1 := decodeList_encode decodeRepositoryModel encodeRepositoryModel
    repositoryModel_rt models
  simp [decodeRepositoryModelResponse, encodeRepositoryModelResponse, reqField,
    lookupField, h1]

theorem inferenceStats_rt (r : InferenceStats) :
    decodeInferenceStats (encodeInferenceStats r) = .ok r := by
  obtain ⟨count, ns⟩ := r
  have h1 := cond_encodeOpt Json.str asString count (fun _ => rfl)
    (fun _ _ => rfl)
  have h2 := cond_encodeOpt Json.str asString ns (fun _ => rfl) (fun _ _ => rfl)
  simp [decodeInferenceStats, encodeInferenceStats, optField, lookupField,
    h1, h2]

theorem batchStats_rt (r : BatchStats) :
    decodeBatchStats (encodeBatchStats r) = .ok r := by
  obtain ⟨bs, ci, cf, co⟩ := r
  simp [decodeBatchStats, encodeBatchStats, reqField, lookupField, asString,
    inferenceStats_rt]

theorem modelStats_rt (r : ModelStats) :
    decodeModelStats (encodeModelStats r) = .ok r := by
  obtain ⟨name, version, infStats, lastInf, infCount, execCount, batchSt⟩ := r
  have h1 := decodeMap_encodeMap decodeInferenceStats encodeInferenceStats
    inferenceStats_rt infStats
  have h5 := decodeList_encode decodeBatchStats encodeBatchStats batchStats_rt
  rcases lastInf with _ | lastInf <;> rcases infCount with _ | infCount <;>
    rcases execCount with _ | execCount <;> rcases batchSt with _ | batchSt <;>
    simp [decodeModelStats, encodeModelStats, reqField, optField, lookupField,
      asString, encodeOpt, Json.isNull, h1, h5]

theorem metricsResponse_rt (r : MetricsResponse) :
    decodeMetricsResponse (encodeMetricsResponse r) = .ok r := by
  obtain ⟨stats⟩ := r
  have h1 := decodeList_encode decodeModelStats encodeModelStats
    modelStats_rt stats
  simp [decodeMetricsResponse, encodeMetricsResponse, reqField, lookupField, h1]

theorem textEmbeddingResponse_rt (r : TextEmbeddingResponse) :
    decodeTextEmbeddingResponse (encodeTextEmbeddingResponse r) = .ok r := by
  obtain ⟨em, pt⟩ := r
  simp [decodeTextEmbeddingResponse, encodeTextEmbeddingResponse, reqField,
    lookupField, asNum]

theorem imageEmbeddingResponse_rt (r : ImageEmbeddingResponse) :
    decodeImageEmbeddingResponse (encodeImageEmbeddingResponse r) = .ok r := by
  obtain ⟨em, pt⟩ := r
  simp [decodeImageEmbeddingResponse, encodeImageEmbeddingResponse, reqField,
    lookupField, asNum]

theorem imageClassificationResponse_rt (r : ImageClassificationResponse) :
    decodeImageClassificationResponse (encodeImageClassificationResponse r) =
      .ok r := by
  obtain ⟨pr, pt⟩ := r
  simp [decodeImageClassificationResponse, encodeImageClassificationResponse,
    reqField, lookupField, asNum]

theorem embeddingResponse_rt (r : EmbeddingResponse) :
    decodeEmbeddingResponse (encodeEmbeddingResponse r) = .ok r := by
  obtain ⟨te, ie, pt⟩ := r
  have h1 := cond_encodeOpt encodeMatrix decodeMatrix te (fun _ => rfl)
    (fun x _ => decodeMatrix_encodeMatrix x)
  have h2 := cond_encodeOpt encodeMatrix decodeMatrix ie (fun _ => rfl)
    (fun x _ => decodeMatrix_encodeMatrix x)
  simp [decodeEmbeddingResponse, encodeEmbeddingResponse, reqField, optField,
    lookupField, asNum, h1, h2]

theorem modelClassificationLabelsResponse_rt
    (r : ModelClassificationLabelsResponse) :
    decodeModelClassificationLabelsResponse
      (encodeModelClassificationLabelsResponse r) = .ok r := by
  obtain ⟨labels⟩ := r
  simp [decodeModelClassificationLabelsResponse,
    encodeModelClassificationLabelsResponse, reqField, lookupField]

theorem modelEmbeddingDimsResponse_rt (r : ModelEmbeddingDimsResponse)
    (hb : r.embedding_size < 18446744073709551616) :
    decodeModelEmbeddingDimsResponse (encodeModelEmbeddingDimsResponse r) =
      .ok r := by
  obtain ⟨size⟩ := r
  have h1 := asNatBelow_encodeNat 18446744073709551616 size hb
  simp [decodeModelEmbeddingDimsResponse, encodeModelEmbeddingDimsResponse,
    reqField, lookupField, h1]

/-- C9: for every request and response record type in the contract layer,
encoding a value to its wire form (with the type's wire naming convention
applied) and then decoding the result yields a value field-for-field equal to
the original.  Integer-typed fields carry their Rust-type range as a
hypothesis (`u16` for nDims, `u64` for embeddingSize), which every in-memory
Rust value satisfies by construction. -/
theorem contract_roundtrip :
    (∀ r : EmbeddingRequest, (∀ k ∈ r.n_dims, k < 65536) →
      decodeEmbeddingRequest (encodeEmbeddingRequest r) = .ok r) ∧
    (∀ r : TextEmbeddingRequest, (∀ k ∈ r.n_dims, k < 65536) →
      decodeTextEmbeddingRequest (encodeTextEmbeddingRequest r) = .ok r) ∧
    (∀ r : ImageEmbeddingRequest, (∀ k ∈ r.n_dims, k < 65536) →
      decodeImageEmbeddingRequest (encodeImageEmbeddingRequest r) = .ok r) ∧
    (∀ r : ImageClassificationRequest,
      decodeImageClassificationRequest (encodeImageClassificationRequest r) =
        .ok r) ∧
    (∀ m : ModelLibrary, decodeModelLibrary (encodeModelLibrary m) = .ok m) ∧
    (∀ r : LoadModelRequest,
      decodeLoadModelRequest (encodeLoadModelRequest r) = .ok r) ∧
    (∀ r : UnloadModelRequest,
      decodeUnloadModelRequest (encodeUnloadModelRequest r) = .ok r) ∧
    (∀ r : ModelMetadataRequest,
      decodeModelMetadataRequest (encodeModelMetadataRequest r) = .ok r) ∧
    (∀ r : GenericMessageResponse,
      decodeGenericMessageResponse (encodeGenericMessageResponse r) = .ok r) ∧
    (∀ r : LoadedModel, decodeLoadedModel (encodeLoadedModel r) = .ok r) ∧
    (∀ r : LoadedModelResponse,
      decodeLoadedModelResponse (encodeLoadedModelResponse r) = .ok r) ∧
    (∀ r : RepositoryModel,
      decodeRepositoryModel (encodeRepositoryModel r) = .ok r) ∧
    (∀ r : RepositoryModelResponse,
      decodeRepositoryModelResponse (encodeRepositoryModelResponse r) =
        .ok r) ∧
    (∀ r : InferenceStats,
      decodeInferenceStats (encodeInferenceStats r) = .ok r) ∧
    (∀ r : BatchStats, decodeBatchStats (encodeBatchStats r) = .ok r) ∧
    (∀ r : ModelStats, decodeModelStats (encodeModelStats r) = .ok r) ∧
    (∀ r : MetricsResponse,
      decodeMetricsResponse (encodeMetricsResponse r) = .ok r) ∧
    (∀ r : TextEmbeddingResponse,
      decodeTextEmbeddingResponse (encodeTextEmbeddingResponse r) = .ok r) ∧
    (∀ r : ImageEmbeddingResponse,
      decodeImageEmbeddingResponse (encodeImageEmbeddingResponse r) = .ok r) ∧
    (∀ r : ImageClassificationResponse,
      decodeImageClassificationResponse (encodeImageClassificationResponse r) =
        .ok r) ∧
    (∀ r : EmbeddingResponse,
      decodeEmbeddingResponse (encodeEmbeddingResponse r) = .ok r) ∧
    (∀ r : ModelClassificationLabelsResponse,
      decodeModelClassificationLabelsResponse
        (encodeModelClassificationLabelsResponse r) = .ok r) ∧
    (∀ r : ModelEmbeddingDimsResponse,
      r.embedding_size < 18446744073709551616 →
      decodeModelEmbeddingDimsResponse (encodeModelEmbeddingDimsResponse r) =
        .ok r) :=
  ⟨embeddingRequest_rt, textEmbeddingRequest_rt, imageEmbeddingRequest_rt,
   imageClassificationRequest_rt, modelLibrary_rt, loadModelRequest_rt,
   unloadModelRequest_rt, modelMetadataRequest_rt, genericMessageResponse_rt,
   loadedModel_rt, loadedModelResponse_rt, repositoryModel_rt,
   repositoryModelResponse_rt, inferenceStats_rt, batchStats_rt, modelStats_rt,
   metricsResponse_rt, textEmbeddingResponse_rt, imageEmbeddingResponse_rt,
   imageClassificationResponse_rt, embeddingResponse_rt,
   modelClassificationLabelsResponse_rt, modelEmbeddingDimsResponse_rt⟩

/-- C9 witness: concrete records round-trip, the `u16` and `u64` bounds
discharged at 512 and 768. -/
theorem contract_roundtrip_witness :
    decodeTextEmbeddingRequest (encodeTextEmbeddingRequest
      { name := "clip", text := ["a", "b"], normalize := some true,
        n_dims := some 512 }) =
      .ok { name := "clip", text := ["a", "b"], normalize := some true,
            n_dims := some 512 } ∧
    decodeModelEmbeddingDimsResponse (encodeModelEmbeddingDimsResponse
      { embedding_size := 768 }) = .ok { embedding_size := 768 } ∧
    decodeEmbeddingResponse (encodeEmbeddingResponse
      { text_embeddings := some [[1, 2]], image_embeddings := none,
        processing_time_ms := 7 }) =
      .ok { text_embeddings := some [[1, 2]], image_embeddings := none,
            processing_time_ms := 7 } := by
  obtain ⟨-, h2, -, -, -, -, -, -, -, -, -, -, -, -, -, -, -, -, -, -, h21,
    -, h23⟩ := contract_roundtrip
  refine ⟨?_, ?_, ?_⟩
  · exact h2 _ (fun k hk => by simp at hk; omega)
  · exact h23 _ (by norm_num)
  · exact h21 _

/-! ### Decode failure on missing or ill-typed required fields -/

theorem reqField_bad (fs : List (String × Json)) (name : String)
    (sub : Json → Except String α) (h : badRequired fs name sub) :
    ∃ e, reqField fs name sub = .error e := by
  rcases h with h | ⟨j, hj, hx⟩
  · exact ⟨_, reqField_no_field fs name sub h⟩
  · cases hs : sub j with
    | ok x => exact absurd hs (hx x)
    | error e => exact ⟨e, by rw [reqField_found fs name sub j hj, hs]⟩

theorem gmrBad (fs : List (String × Json))
    (h : badRequired fs "message" asString) :
    ∃ e, decodeGenericMessageResponse (.obj fs) = .error e := by
  obtain ⟨e, he⟩ := reqField_bad fs "message" asString h
  exact ⟨e, by simp [decodeGenericMessageResponse, he]⟩

theorem loadedModelBad_name (fs : List (String × Json))
    (h : badRequired fs "name" asString) :
    ∃ e, decodeLoadedModel (.obj fs) = .error e := by
  obtain ⟨e, he⟩ := reqField_bad fs "name" asString h
  exact ⟨e, by simp [decodeLoadedModel, he]⟩

theorem loadedModelBad_library (fs : List (String × Json))
    (h : badRequired fs "library" decodeModelLibrary) :
    ∃ e, decodeLoadedModel (.obj fs) = .error e := by
  obtain ⟨e, he⟩ := reqField_bad fs "library" decodeModelLibrary h
  cases h1 : reqField fs "name" asString with
  | error e1 => exact ⟨e1, by simp [decodeLoadedModel, h1]⟩
  | ok v1 => exact ⟨e, by simp [decodeLoadedModel, h1, he]⟩

theorem loadedModelResponseBad_models (fs : List (String × Json))
    (h : badRequired fs "models" (decodeList decodeLoadedModel)) :
    ∃ e, decodeLoadedModelResponse (.obj fs) = .error e := by
  obtain ⟨e, he⟩ := reqField_bad fs "models" (decodeList decodeLoadedModel) h
  exact ⟨e, by simp [decodeLoadedModelResponse, he]⟩

theorem repositoryModelBad_name (fs : List (String × Json))
    (h : badRequired fs "name" asString) :
    ∃ e, decodeRepositoryModel (.obj fs) = .error e := by
  obtain ⟨e, he⟩ := reqField_bad fs "name" asString h
  exact ⟨e, by simp [decodeRepositoryModel, he]⟩

theorem repositoryModelBad_state (fs : List (String × Json))
    (h : badRequired fs "state" asString) :
    ∃ e, decodeRepositoryModel (.obj fs) = .error e := by
  obtain ⟨e, he⟩ := reqField_bad fs "state" asString h
  cases h1 : reqField fs "name" asString with
  | error e1 => exact ⟨e1, by simp [decodeRepositoryModel, h1]⟩
  | ok v1 => exact ⟨e, by simp [decodeRepositoryModel, h1, he]⟩

theorem repositoryModelResponseBad_models (fs : List (String × Json))
    (h : badRequired fs "models" (decodeList decodeRepositoryModel)) :
    ∃ e, decodeRepositoryModelResponse (.obj fs) = .error e := by
  obtain ⟨e, he⟩ :=
    reqField_bad fs "models" (decodeList decodeRepositoryModel) h
  exact ⟨e, by simp [decodeRepositoryModelResponse, he]⟩

theorem batchStatsBad_batchSize (fs : List (String × Json))
    (h : badRequired fs "batchSize" asString) :
    ∃ e, decodeBatchStats (.obj fs) = .error e := by
  obtain ⟨e, he⟩ := reqField_bad fs "batchSize" asString h
  exact ⟨e, by simp [decodeBatchStats, he]⟩

theorem batchStatsBad_computeInput (fs : List (String × Json))
    (h : badRequired fs "computeInput" decodeInferenceStats) :
    ∃ e, decodeBatchStats (.obj fs) = .error e := by
  obtain ⟨e, he⟩ := reqField_bad fs "computeInput" decodeInferenceStats h
  cases h1 : reqField fs "batchSize" asString with
  | error e1 => exact ⟨e1, by simp [decodeBatchStats, h1]⟩
  | ok v1 => exact ⟨e, by simp [decodeBatchStats, h1, he]⟩

theorem batchStatsBad_computeInfer (fs : List (String × Json))
    (h : badRequired fs "computeInfer" decodeInferenceStats) :
    ∃ e, decodeBatchStats (.obj fs) = .error e := by
  obtain ⟨e, he⟩ := reqField_bad fs "computeInfer" decodeInferenceStats h
  cases h1 : reqField fs "batchSize" asString with
  | error e1 => exact ⟨e1, by simp [decodeBatchStats, h1]⟩
  | ok v1 =>
    cases h2 : reqField fs "computeInput" decodeInferenceStats with
    | error e2 => exact ⟨e2, by simp [decodeBatchStats, h1, h2]⟩
    | ok v2 => exact ⟨e, by simp [decodeBatchStats, h1, h2, he]⟩

theorem batchStatsBad_computeOutput (fs : List (String × Json))
    (h : badRequired fs "computeOutput" decodeInferenceStats) :
    ∃ e, decodeBatchStats (.obj fs) = .error e := by
  obtain ⟨e, he⟩ := reqField_bad fs "computeOutput" decodeInferenceStats h
  cases h1 : reqField fs "batchSize" asString with
  | error e1 => exact ⟨e1, by simp [decodeBatchStats, h1]⟩
  | ok v1 =>
    cases h2 : reqField fs "computeInput" decodeInferenceStats with
    | error e2 => exact ⟨e2, by simp [decodeBatchStats, h1, h2]⟩
    | ok v2 =>
      cases h3 : reqField fs "computeInfer" decodeInferenceStats with
      | error e3 => exact ⟨e3, by simp [decodeBatchStats, h1, h2, h3]⟩
      | ok v3 => exact ⟨e, by simp [decodeBatchStats, h1, h2, h3, he]⟩

theorem modelStatsBad_name (fs : List (String × Json))
    (h : badRequired fs "name" asString) :
    ∃ e, decodeModelStats (.obj fs) = .error e := by
  obtain ⟨e, he⟩ := reqField_bad fs "name" asString h
  exact ⟨e, by simp [decodeModelStats, he]⟩

theorem modelStatsBad_version (fs : List (String × Json))
    (h : badRequired fs "version" asString) :
    ∃ e, decodeModelStats (.obj fs) = .error e := by
  obtain ⟨e, he⟩ := reqField_bad fs "version" asString h
  cases h1 : reqField fs "name" asString with
  | error e1 => exact ⟨e1, by simp [decodeModelStats, h1]⟩
  | ok v1 => exact ⟨e, by simp [decodeModelStats, h1, he]⟩

theorem modelStatsBad_inferenceStats (fs : List (String × Json))
    (h : badRequired fs "inferenceStats" (decodeMap decodeInferenceStats)) :
    ∃ e, decodeModelStats (.obj fs) = .error e := by
  obtain ⟨e, he⟩ :=
    reqField_bad fs "inferenceStats" (decodeMap decodeInferenceStats) h
  cases h1 : reqField fs "name" asString with
  | error e1 => exact ⟨e1, by simp [decodeModelStats, h1]⟩
  | ok v1 =>
    cases h2 : reqField fs "version" asString with
    | error e2 => exact ⟨e2, by simp [decodeModelStats, h1, h2]⟩
    | ok v2 => exact ⟨e, by simp [decodeModelStats, h1, h2, he]⟩

theorem metricsResponseBad_modelStats (fs : List (String × Json))
    (h : badRequired fs "modelStats" (decodeList decodeModelStats)) :
    ∃ e, decodeMetricsResponse (.obj fs) = .error e := by
  obtain ⟨e, he⟩ := reqField_bad fs "modelStats" (decodeList decodeModelStats) h
  exact ⟨e, by simp [decodeMetricsResponse, he]⟩

theorem terBad_embeddings (fs : List (String × Json))
    (h : badRequired fs "embeddings" decodeMatrix) :
    ∃ e, decodeTextEmbeddingResponse (.obj fs) = .error e := by
  obtain ⟨e, he⟩ := reqField_bad fs "embeddings" decodeMatrix h
  exact ⟨e, by simp [decodeTextEmbeddingResponse, he]⟩

theorem terBad_pt (fs : List (String × Json))
    (h : badRequired fs "processingTimeMs" asNum) :
    ∃ e, decodeTextEmbeddingResponse (.obj fs) = .error e := by
  obtain ⟨e, he⟩ := reqField_bad fs "processingTimeMs" asNum h
  cases h1 : reqField fs "embeddings" decodeMatrix with
  | error e1 => exact ⟨e1, by simp [decodeTextEmbeddingResponse, h1]⟩
  | ok v1 => exact ⟨e, by simp [decodeTextEmbeddingResponse, h1, he]⟩

theorem ierBad_embeddings (fs : List (String × Json))
    (h : badRequired fs "embeddings" decodeMatrix) :
    ∃ e, decodeImageEmbeddingResponse (.obj fs) = .error e := by
  obtain ⟨e, he⟩ := reqField_bad fs "embeddings" decodeMatrix h
  exact ⟨e, by simp [decodeImageEmbeddingResponse, he]⟩

theorem ierBad_pt (fs : List (String × Json))
    (h : badRequired fs "processingTimeMs" asNum) :
    ∃ e, decodeImageEmbeddingResponse (.obj fs) = .error e := by
  obtain ⟨e, he⟩ := reqField_bad fs "processingTimeMs" asNum h
  cases h1 : reqField fs "embeddings" decodeMatrix with
  | error e1 => exact ⟨e1, by simp [decodeImageEmbeddingResponse, h1]⟩
  | ok v1 => exact ⟨e, by simp [decodeImageEmbeddingResponse, h1, he]⟩

theorem icrBad_probabilities (fs : List (String × Json))
    (h : badRequired fs "probabilities" decodeMatrix) :
    ∃ e, decodeImageClassificationResponse (.obj fs) = .error e := by
  obtain ⟨e, he⟩ := reqField_bad fs "probabilities" decodeMatrix h
  exact ⟨e, by simp [decodeImageClassificationResponse, he]⟩

theorem icrBad_pt (fs : List (String × Json))
    (h : badRequired fs "processingTimeMs" asNum) :
    ∃ e, decodeImageClassificationResponse (.obj fs) = .error e := by
  obtain ⟨e, he⟩ := reqField_bad fs "processingTimeMs" asNum h
  cases h1 : reqField fs "probabilities" decodeMatrix with
  | error e1 => exact ⟨e1, by simp [decodeImageClassificationResponse, h1]⟩
  | ok v1 => exact ⟨e, by simp [decodeImageClassificationResponse, h1, he]⟩

theorem embRespBad_pt (fs : List (String × Json))
    (h : badRequired fs "processingTimeMs" asNum) :
    ∃ e, decodeEmbeddingResponse (.obj fs) = .error e := by
  obtain ⟨e, he⟩ := reqField_bad fs "processingTimeMs" asNum h
  cases h1 : optField fs "textEmbeddings" decodeMatrix with
  | error e1 => exact ⟨e1, by simp [decodeEmbeddingResponse, h1]⟩
  | ok v1 =>
    cases h2 : optField fs "imageEmbeddings" decodeMatrix with
    | error e2 => exact ⟨e2, by simp [decodeEmbeddingResponse, h1, h2]⟩
    | ok v2 => exact ⟨e, by simp [decodeEmbeddingResponse, h1, h2, he]⟩

theorem labelsBad_labels (fs : List (String × Json))
    (h : badRequired fs "labels" decodeStrList) :
    ∃ e, decodeModelClassificationLabelsResponse (.obj fs) = .error e := by
  obtain ⟨e, he⟩ := reqField_bad fs "labels" decodeStrList h
  exact ⟨e, by simp [decodeModelClassificationLabelsResponse, he]⟩

theorem dimsBad_embeddingSize (fs : List (String × Json))
    (h : badRequired fs "embeddingSize" (asNatBelow 18446744073709551616)) :
    ∃ e, decodeModelEmbeddingDimsResponse (.obj fs) = .error e := by
  obtain ⟨e, he⟩ :=
    reqField_bad fs "embeddingSize" (asNatBelow 18446744073709551616) h
  exact ⟨e, by simp [decodeModelEmbeddingDimsResponse, he]⟩

/-! ### Unknown extra fields are ignored -/

theorem lookupField_skip (fs extra : List (String × Json))
    (names : List String) (hext : ∀ kv ∈ extra, kv.1 ∉ names) (name : String)
    (hn : name ∈ names) :
    lookupField (fs ++ extra) name = lookupField fs name :=
  lookupField_append_skip fs extra name
    (fun kv hkv hc => hext kv hkv (hc ▸ hn))

theorem gmrExtra (fs extra : List (String × Json))
    (h : ∀ kv ∈ extra, kv.1 ∉ (["message"] : List String)) :
    decodeGenericMessageResponse (.obj (fs ++ extra)) =
      decodeGenericMessageResponse (.obj fs) := by
  have h1 := lookupField_skip fs extra _ h "message" (by simp)
  simp [decodeGenericMessageResponse, reqField, h1]

theorem loadedModelExtra (fs extra : List (String × Json))
    (h : ∀ kv ∈ extra, kv.1 ∉ (["name", "library"] : List String)) :
    decodeLoadedModel (.obj (fs ++ extra)) = decodeLoadedModel (.obj fs) := by
  have h1 := lookupField_skip fs extra _ h "name" (by simp)
  have h2 := lookupField_skip fs extra _ h "library" (by simp)
  simp [decodeLoadedModel, reqField, h1, h2]

theorem loadedModelResponseExtra (fs extra : List (String × Json))
    (h : ∀ kv ∈ extra, kv.1 ∉ (["models"] : List String)) :
    decodeLoadedModelResponse (.obj (fs ++ extra)) =
      decodeLoadedModelResponse (.obj fs) := by
  have h1 := lookupField_skip fs extra _ h "models" (by simp)
  simp [decodeLoadedModelResponse, reqField, h1]

theorem repositoryModelExtra (fs extra : List (String × Json))
    (h : ∀ kv ∈ extra, kv.1 ∉ (["name", "state"] : List String)) :
    decodeRepositoryModel (.obj (fs ++ extra)) =
      decodeRepositoryModel (.obj fs) := by
  have h1 := lookupField_skip fs extra _ h "name" (by simp)
  have h2 := lookupField_skip fs extra _ h "state" (by simp)
  simp [decodeRepositoryModel, reqField, h1, h2]

theorem repositoryModelResponseExtra (fs extra : List (String × Json))
    (h : ∀ kv ∈ extra, kv.1 ∉ (["models"] : List String)) :
    decodeRepositoryModelResponse (.obj (fs ++ extra)) =
      decodeRepositoryModelResponse (.obj fs) := by
  have h1 := lookupField_skip fs extra _ h "models" (by simp)
  simp [decodeRepositoryModelResponse, reqField, h1]

theorem inferenceStatsExtra (fs extra : List (String × Json))
    (h : ∀ kv ∈ extra, kv.1 ∉ (["count", "ns"] : List String)) :
    decodeInferenceStats (.obj (fs ++ extra)) =
      decodeInferenceStats (.obj fs) := by
  have h1 := lookupField_skip fs extra _ h "count" (by simp)
  have h2 := lookupField_skip fs extra _ h "ns" (by simp)
  simp [decodeInferenceStats, optField, h1, h2]

theorem batchStatsExtra (fs extra : List (String × Json))
    (h : ∀ kv ∈ extra, kv.1 ∉
      (["batchSize", "computeInput", "computeInfer", "computeOutput"] :
        List String)) :
    decodeBatchStats (.obj (fs ++ extra)) = decodeBatchStats (.obj fs) := by
  have h1 := lookupField_skip fs extra _ h "batchSize" (by simp)
  have h2 := lookupField_skip fs extra _ h "computeInput" (by simp)
  have h3 := lookupField_skip fs extra _ h "computeInfer" (by simp)
  have h4 := lookupField_skip fs extra _ h "computeOutput" (by simp)
  simp [decodeBatchStats, reqField, h1, h2, h3, h4]

theorem modelStatsExtra (fs extra : List (String × Json))
    (h : ∀ kv ∈ extra, kv.1 ∉
      (["name", "version", "inferenceStats", "lastInference",
        "inferenceCount", "executionCount", "batchStats"] : List String)) :
    decodeModelStats (.obj (fs ++ extra)) = decodeModelStats (.obj fs) := by
  have h1 := lookupField_skip fs extra _ h "name" (by simp)
  have h2 := lookupField_skip fs extra _ h "version" (by simp)
  have h3 := lookupField_skip fs extra _ h "inferenceStats" (by simp)
  have h4 := lookupField_skip fs extra _ h "lastInference" (by simp)
  have h5 := lookupField_skip fs extra _ h "inferenceCount" (by simp)
  have h6 := lookupField_skip fs extra _ h "executionCount" (by simp)
  have h7 := lookupField_skip fs extra _ h "batchStats" (by simp)
  simp [decodeModelStats, reqField, optField, h1, h2, h3, h4, h5, h6, h7]

theorem metricsResponseExtra (fs extra : List (String × Json))
    (h : ∀ kv ∈ extra, kv.1 ∉ (["modelStats"] : List String)) :
    decodeMetricsResponse (.obj (fs ++ extra)) =
      decodeMetricsResponse (.obj fs) := by
  have h1 := lookupField_skip fs extra _ h "modelStats" (by simp)
  simp [decodeMetricsResponse, reqField, h1]

theorem terExtra (fs extra : List (String × Json))
    (h : ∀ kv ∈ extra, kv.1 ∉
      (["embeddings", "processingTimeMs"] : List String)) :
    decodeTextEmbeddingResponse (.obj (fs ++ extra)) =
      decodeTextEmbeddingResponse (.obj fs) := by
  have h1 := lookupField_skip fs extra _ h "embeddings" (by simp)
  have h2 := lookupField_skip fs extra _ h "processingTimeMs" (by simp)
  simp [decodeTextEmbeddingResponse, reqField, h1, h2]

theorem ierExtra (fs extra : List (String × Json))
    (h : ∀ kv ∈ extra, kv.1 ∉
      (["embeddings", "processingTimeMs"] : List String)) :
    decodeImageEmbeddingResponse (.obj (fs ++ extra)) =
      decodeImageEmbeddingResponse (.obj fs) := by
  have h1 := lookupField_skip fs extra _ h "embeddings" (by simp)
  have h2 := lookupField_skip fs extra _ h "processingTimeMs" (by simp)
  simp [decodeImageEmbeddingResponse, reqField, h1, h2]

theorem icrExtra (fs extra : List (String × Json))
    (h : ∀ kv ∈ extra, kv.1 ∉
      (["probabilities", "processingTimeMs"] : List String)) :
    decodeImageClassificationResponse (.obj (fs ++ extra)) =
      decodeImageClassificationResponse (.obj fs) := by
  have h1 := lookupField_skip fs extra _ h "probabilities" (by simp)
  have h2 := lookupField_skip fs extra _ h "processingTimeMs" (by simp)
  simp [decodeImageClassificationResponse, reqField, h1, h2]

theorem embRespExtra (fs extra : List (String × Json))
    (h : ∀ kv ∈ extra, kv.1 ∉
      (["textEmbeddings", "imageEmbeddings", "processingTimeMs"] :
        List String)) :
    decodeEmbeddingResponse (.obj (fs ++ extra)) =
      decodeEmbeddingResponse (.obj fs) := by
  have h1 := lookupField_skip fs extra _ h "textEmbeddings" (by simp)
  have h2 := lookupField_skip fs extra _ h "imageEmbeddings" (by simp)
  have h3 := lookupField_skip fs extra _ h "processingTimeMs" (by simp)
  simp [decodeEmbeddingResponse, reqField, optField, h1, h2, h3]

theorem labelsExtra (fs extra : List (String × Json))
    (h : ∀ kv ∈ extra, kv.1 ∉ (["labels"] : List String)) :
    decodeModelClassificationLabelsResponse (.obj (fs ++ extra)) =
      decodeModelClassificationLabelsResponse (.obj fs) := by
  have h1 := lookupField_skip fs extra _ h "labels" (by simp)
  simp [decodeModelClassificationLabelsResponse, reqField, h1]

theorem dimsExtra (fs extra : List (String × Json))
    (h : ∀ kv ∈ extra, kv.1 ∉ (["embeddingSize"] : List String)) :
    decodeModelEmbeddingDimsResponse (.obj (fs ++ extra)) =
      decodeModelEmbeddingDimsResponse (.obj fs) := by
  have h1 := lookupField_skip fs extra _ h "embeddingSize" (by simp)
  simp [decodeModelEmbeddingDimsResponse, reqField, h1]

/-- C8: for every response record type of the contract layer, decoding fails
whenever a required field is missing or holds a value its sub-decoder rejects
(wrong type), with no silent defaulting; and appending fields with unknown
names leaves the decoding result unchanged (unknown extra fields are silently
ignored).  `badRequired fs name sub` states that field `name` is missing from
`fs` or present with a value `sub` rejects. -/
theorem response_decode_required_and_extra :
    (∀ fs, badRequired fs "message" asString →
      ∃ e, decodeGenericMessageResponse (.obj fs) = .error e) ∧
    (∀ fs, badRequired fs "name" asString →
      ∃ e, decodeLoadedModel (.obj fs) = .error e) ∧
    (∀ fs, badRequired fs "library" decodeModelLibrary →
      ∃ e, decodeLoadedModel (.obj fs) = .error e) ∧
    (∀ fs, badRequired fs "models" (decodeList decodeLoadedModel) →
      ∃ e, decodeLoadedModelResponse (.obj fs) = .error e) ∧
    (∀ fs, badRequired fs "name" asString →
      ∃ e, decodeRepositoryModel (.obj fs) = .error e) ∧
    (∀ fs, badRequired fs "state" asString →
      ∃ e, decodeRepositoryModel (.obj fs) = .error e) ∧
    (∀ fs, badRequired fs "models" (decodeList decodeRepositoryModel) →
      ∃ e, decodeRepositoryModelResponse (.obj fs) = .error e) ∧
    (∀ fs, badRequired fs "batchSize" asString →
      ∃ e, decodeBatchStats (.obj fs) = .error e) ∧
    (∀ fs, badRequired fs "computeInput" decodeInferenceStats →
      ∃ e, decodeBatchStats (.obj fs) = .error e) ∧
    (∀ fs, badRequired fs "computeInfer" decodeInferenceStats →
      ∃ e, decodeBatchStats (.obj fs) = .error e) ∧
    (∀ fs, badRequired fs "computeOutput" decodeInferenceStats →
      ∃ e, decodeBatchStats (.obj fs) = .error e) ∧
    (∀ fs, badRequired fs "name" asString →
      ∃ e, decodeModelStats (.obj fs) = .error e) ∧
    (∀ fs, badRequired fs "version" asString →
      ∃ e, decodeModelStats (.obj fs) = .error e) ∧
    (∀ fs, badRequired fs "inferenceStats" (decodeMap decodeInferenceStats) →
      ∃ e, decodeModelStats (.obj fs) = .error e) ∧
    (∀ fs, badRequired fs "modelStats" (decodeList decodeModelStats) →
      ∃ e, decodeMetricsResponse (.obj fs) = .error e) ∧
    (∀ fs, badRequired fs "embeddings" decodeMatrix →
      ∃ e, decodeTextEmbeddingResponse (.obj fs) = .error e) ∧
    (∀ fs, badRequired fs "processingTimeMs" asNum →
      ∃ e, decodeTextEmbeddingResponse (.obj fs) = .error e) ∧
    (∀ fs, badRequired fs "embeddings" decodeMatrix →
      ∃ e, decodeImageEmbeddingResponse (.obj fs) = .error e) ∧
    (∀ fs, badRequired fs "processingTimeMs" asNum →
      ∃ e, decodeImageEmbeddingResponse (.obj fs) = .error e) ∧
    (∀ fs, badRequired fs "probabilities" decodeMatrix →
      ∃ e, decodeImageClassificationResponse (.obj fs) = .error e) ∧
    (∀ fs, badRequired fs "processingTimeMs" asNum →
      ∃ e, decodeImageClassificationResponse (.obj fs) = .error e) ∧
    (∀ fs, badRequired fs "processingTimeMs" asNum →
      ∃ e, decodeEmbeddingResponse (.obj fs) = .error e) ∧
    (∀ fs, badRequired fs "labels" decodeStrList →
      ∃ e, decodeModelClassificationLabelsResponse (.obj fs) = .error e) ∧
    (∀ fs, badRequired fs "embeddingSize" (asNatBelow 18446744073709551616) →
      ∃ e, decodeModelEmbeddingDimsResponse (.obj fs) = .error e) ∧
    (∀ fs extra, (∀ kv ∈ extra, kv.1 ∉ (["message"] : List String)) →
      decodeGenericMessageResponse (.obj (fs ++ extra)) =
        decodeGenericMessageResponse (.obj fs)) ∧
    (∀ fs extra, (∀ kv ∈ extra, kv.1 ∉ (["name", "library"] : List String)) →
      decodeLoadedModel (.obj (fs ++ extra)) = decodeLoadedModel (.obj fs)) ∧
    (∀ fs extra, (∀ kv ∈ extra, kv.1 ∉ (["models"] : List String)) →
      decodeLoadedModelResponse (.obj (fs ++ extra)) =
        decodeLoadedModelResponse (.obj fs)) ∧
    (∀ fs extra, (∀ kv ∈ extra, kv.1 ∉ (["name", "state"] : List String)) →
      decodeRepositoryModel (.obj (fs ++ extra)) =
        decodeRepositoryModel (.obj fs)) ∧
    (∀ fs extra, (∀ kv ∈ extra, kv.1 ∉ (["models"] : List String)) →
      decodeRepositoryModelResponse (.obj (fs ++ extra)) =
        decodeRepositoryModelResponse (.obj fs)) ∧
    (∀ fs extra, (∀ kv ∈ extra, kv.1 ∉ (["count", "ns"] : List String)) →
      decodeInferenceStats (.obj (fs ++ extra)) =
        decodeInferenceStats (.obj fs)) ∧
    (∀ fs extra, (∀ kv ∈ extra, kv.1 ∉
        (["batchSize", "computeInput", "computeInfer", "computeOutput"] :
          List String)) →
      decodeBatchStats (.obj (fs ++ extra)) = decodeBatchStats (.obj fs)) ∧
    (∀ fs extra, (∀ kv ∈ extra, kv.1 ∉
        (["name", "version", "inferenceStats", "lastInference",
          "inferenceCount", "executionCount", "batchStats"] : List String)) →
      decodeModelStats (.obj (fs ++ extra)) = decodeModelStats (.obj fs)) ∧
    (∀ fs extra, (∀ kv ∈ extra, kv.1 ∉ (["modelStats"] : List String)) →
      decodeMetricsResponse (.obj (fs ++ extra)) =
        decodeMetricsResponse (.obj fs)) ∧
    (∀ fs extra, (∀ kv ∈ extra, kv.1 ∉
        (["embeddings", "processingTimeMs"] : List String)) →
      decodeTextEmbeddingResponse (.obj (fs ++ extra)) =
        decodeTextEmbeddingResponse (.obj fs)) ∧
    (∀ fs extra, (∀ kv ∈ extra, kv.1 ∉
        (["embeddings", "processingTimeMs"] : List String)) →
      decodeImageEmbeddingResponse (.obj (fs ++ extra)) =
        decodeImageEmbeddingResponse (.obj fs)) ∧
    (∀ fs extra, (∀ kv ∈ extra, kv.1 ∉
        (["probabilities", "processingTimeMs"] : List String)) →
      decodeImageClassificationResponse (.obj (fs ++ extra)) =
        decodeImageClassificationResponse (.obj fs)) ∧
    (∀ fs extra, (∀ kv ∈ extra, kv.1 ∉
        (["textEmbeddings", "imageEmbeddings", "processingTimeMs"] :
          List String)) →
      decodeEmbeddingResponse (.obj (fs ++ extra)) =
        decodeEmbeddingResponse (.obj fs)) ∧
    (∀ fs extra, (∀ kv ∈ extra, kv.1 ∉ (["labels"] : List String)) →
      decodeModelClassificationLabelsResponse (.obj (fs ++ extra)) =
        decodeModelClassificationLabelsResponse (.obj fs)) ∧
    (∀ fs extra, (∀ kv ∈ extra, kv.1 ∉ (["embeddingSize"] : List String)) →
      decodeModelEmbeddingDimsResponse (.obj (fs ++ extra)) =
        decodeModelEmbeddingDimsResponse (.obj fs)) :=
  ⟨gmrBad, loadedModelBad_name, loadedModelBad_library,
   loadedModelResponseBad_models, repositoryModelBad_name,
   repositoryModelBad_state, repositoryModelResponseBad_models,
   batchStatsBad_batchSize, batchStatsBad_computeInput,
   batchStatsBad_computeInfer, batchStatsBad_computeOutput,
   modelStatsBad_name, modelStatsBad_version, modelStatsBad_inferenceStats,
   metricsResponseBad_modelStats, terBad_embeddings, terBad_pt,
   ierBad_embeddings, ierBad_pt, icrBad_probabilities, icrBad_pt,
   embRespBad_pt, labelsBad_labels, dimsBad_embeddingSize,
   gmrExtra, loadedModelExtra, loadedModelResponseExtra, repositoryModelExtra,
   repositoryModelResponseExtra, inferenceStatsExtra, batchStatsExtra,
   modelStatsExtra, metricsResponseExtra, terExtra, ierExtra, icrExtra,
   embRespExtra, labelsExtra, dimsExtra⟩

/-- C8 witness: the empty object (missing required field) and a wrongly typed
`message` field fail to decode; an unknown extra field is ignored and decoding
still succeeds. -/
theorem response_decode_required_and_extra_witness :
    (∃ e, decodeGenericMessageResponse (.obj []) = .error e) ∧
    (∃ e, decodeGenericMessageResponse
      (.obj [("message", Json.num 3)]) = .error e) ∧
    decodeGenericMessageResponse
      (.obj ([("message", Json.str "ok")] ++ [("unknownField", Json.bool true)])) =
      .ok { message := "ok" } := by
  refine ⟨?_, ?_, ?_⟩
  · exact response_decode_required_and_extra.1 [] (Or.inl rfl)
  · exact response_decode_required_and_extra.1 [("message", Json.num 3)]
      (Or.inr ⟨Json.num 3, rfl, fun x hx => Except.noConfusion hx⟩)
  · rw [response_decode_required_and_extra.2.2.2.2.2.2.2.2.2.2.2.2.2.2.2.2.2.2.2.2.2.2.2.2.1
      [("message", Json.str "ok")] [("unknownField", Json.bool true)]
      (by simp)]
    rfl

end Ingrain
